import Mathlib

/-!
# terraform-provider-grackdb: resource reconcilers

A shallow embedding of the provider's handlers (`internal/provider`) and of
the entity records they decode (`internal/types`).

* Go maps with string keys are total functions `String → Option α`.
* A handler's `*schema.ResourceData` is a record that is passed in and out.
* The HTTP client is a state-passing function from requests to replies, so
  that a sequence of POSTs (a mutation followed by a read) meets a server
  whose answers depend on what it was sent before.
* `encoding/json` and the plugin SDK are libraries the repository calls;
  the parts the handlers rely on are modelled next to the code using them.
-/

namespace GrackDB

/-! ## Go maps -/

/-- Go `map[string]T`: the value stored under each key, if any. -/
def GoMap (α : Type) : Type := String → Option α

/-- The map literal without entries. -/
def GoMap.empty {α : Type} : GoMap α := fun _ => none

/-- The assignment `m[k] = v`. -/
def GoMap.set {α : Type} (m : GoMap α) (k : String) (v : α) : GoMap α :=
  fun x => if x = k then some v else m x

/-- Whether `k` is a key of `m`. -/
def GoMap.has {α : Type} (m : GoMap α) (k : String) : Bool := (m k).isSome

/-! ## JSON values -/

mutual
/-- A well-formed JSON document. -/
inductive JSON where
  | null : JSON
  | bool (b : Bool) : JSON
  | num (n : Int) : JSON
  | str (s : String) : JSON
  | arr (xs : JSONList) : JSON
  | obj (kvs : JSONFields) : JSON
/-- The elements of a JSON array, in order. -/
inductive JSONList where
  | nil : JSONList
  | cons (x : JSON) (xs : JSONList) : JSONList
/-- The members of a JSON object, in the order they are written. -/
inductive JSONFields where
  | nil : JSONFields
  | cons (k : String) (v : JSON) (rest : JSONFields) : JSONFields
end

/-- Builds a JSON array from a list of elements. -/
def JSON.ofList (xs : List JSON) : JSON :=
  .arr (xs.foldr JSONList.cons JSONList.nil)

/-- Builds a JSON object from a list of members. -/
def JSON.ofFields (kvs : List (String × JSON)) : JSON :=
  .obj (kvs.foldr (fun kv rest => JSONFields.cons kv.1 kv.2 rest) JSONFields.nil)

/-! ## Entity records (`internal/types`) -/

/-- The record `types.User`; `AvatarURL` is a `*string`, `none` being nil. -/
structure User where
  ID : String
  Username : String
  AvatarURL : Option String
deriving DecidableEq, Repr

mutual
/-- The record `types.DiscordBot`; `Account` is a `*DiscordAccount`. -/
inductive DiscordBot where
  | mk (ID : String) (Account : Option DiscordAccount) : DiscordBot
/-- The record `types.DiscordAccount`; `Owner` and `Bot` are pointers. -/
inductive DiscordAccount where
  | mk (ID DiscordID Username Discriminator : String) (Owner : Option User)
      (Bot : Option DiscordBot) : DiscordAccount
end

/-- Field `ID` of a `DiscordBot`. -/
def DiscordBot.ID : DiscordBot → String
  | .mk id _ => id

/-- Field `Account` of a `DiscordBot`. -/
def DiscordBot.Account : DiscordBot → Option DiscordAccount
  | .mk _ acc => acc

/-- Field `ID` of a `DiscordAccount`. -/
def DiscordAccount.ID : DiscordAccount → String
  | .mk id _ _ _ _ _ => id

/-- Field `DiscordID` of a `DiscordAccount`. -/
def DiscordAccount.DiscordID : DiscordAccount → String
  | .mk _ did _ _ _ _ => did

/-- Field `Username` of a `DiscordAccount`. -/
def DiscordAccount.Username : DiscordAccount → String
  | .mk _ _ un _ _ _ => un

/-- Field `Discriminator` of a `DiscordAccount`. -/
def DiscordAccount.Discriminator : DiscordAccount → String
  | .mk _ _ _ disc _ _ => disc

/-- Field `Owner` of a `DiscordAccount`. -/
def DiscordAccount.Owner : DiscordAccount → Option User
  | .mk _ _ _ _ own _ => own

/-- Field `Bot` of a `DiscordAccount`. -/
def DiscordAccount.Bot : DiscordAccount → Option DiscordBot
  | .mk _ _ _ _ _ bot => bot

/-- The zero value of `types.User`. -/
def User.zero : User := ⟨"", "", none⟩

/-- The zero value of `types.DiscordBot`. -/
def DiscordBot.zero : DiscordBot := .mk "" none

/-- The zero value of `types.DiscordAccount`. -/
def DiscordAccount.zero : DiscordAccount := .mk "" "" "" "" none none

/-! ## `json.Unmarshal` into the response records

The decoders follow `encoding/json`: a member is matched to a field by its
name under case folding, members the record does not have are skipped, a
member written twice is decoded twice into the same field, `null` leaves a
string or a record as it is and sets a pointer or a slice to nil, and a
value of the wrong kind is an error. Only the presence of an error reaches
the handlers, so the first error ends the decoding here. A record that
holds one field only is represented by that field.
-/

/-- The error `json.Unmarshal` reports for a value of the wrong kind. -/
def unmarshalTypeError : String := "json: cannot unmarshal value into Go value"

/-- Case folding of one character of a member name: ASCII letters, and the
two other characters that fold to an ASCII letter. -/
def foldChar (c : Char) : Char :=
  if c = Char.ofNat 0x212A then 'k'
  else if c = Char.ofNat 0x17F then 's'
  else c.toLower

/-- Case folding of a member name. -/
def foldKey (k : String) : String := String.mk (k.data.map foldChar)

/-- Whether the member name `k` selects the field whose JSON name is `name`. -/
def keyIs (k name : String) : Bool := decide (foldKey k = foldKey name)

/-- Decoding into a `string` field holding `cur`. -/
def decString (v : JSON) (cur : String) : Except String String :=
  match v with
  | .null => .ok cur
  | .str s => .ok s
  | _ => .error unmarshalTypeError

/-- Decoding into a `*string` field. -/
def decStringPtr (v : JSON) : Except String (Option String) :=
  match v with
  | .null => .ok none
  | .str s => .ok (some s)
  | _ => .error unmarshalTypeError

/-- Decoding the members of an object into a `types.User`. -/
def decUserFields : JSONFields → User → Except String User
  | .nil, u => .ok u
  | .cons k v rest, u =>
    if keyIs k "id" then
      match decString v u.ID with
      | .ok s => decUserFields rest { u with ID := s }
      | .error e => .error e
    else if keyIs k "username" then
      match decString v u.Username with
      | .ok s => decUserFields rest { u with Username := s }
      | .error e => .error e
    else if keyIs k "avatarUrl" then
      match decStringPtr v with
      | .ok p => decUserFields rest { u with AvatarURL := p }
      | .error e => .error e
    else decUserFields rest u

/-- Decoding into a `types.User` holding `u`. -/
def decUser (j : JSON) (u : User) : Except String User :=
  match j with
  | .null => .ok u
  | .obj kvs => decUserFields kvs u
  | _ => .error unmarshalTypeError

/-- Decoding into a `*types.User` holding `cur`. -/
def decUserPtr (j : JSON) (cur : Option User) : Except String (Option User) :=
  match j with
  | .null => .ok none
  | _ =>
    match decUser j (cur.getD User.zero) with
    | .ok u => .ok (some u)
    | .error e => .error e

mutual
/-- Decoding into a `types.DiscordBot` holding `b`. -/
def decDiscordBot (j : JSON) (b : DiscordBot) : Except String DiscordBot :=
  match j with
  | .null => .ok b
  | .obj kvs => decDiscordBotFields kvs b
  | _ => .error unmarshalTypeError
/-- Decoding the members of an object into a `types.DiscordBot`. -/
def decDiscordBotFields (kvs : JSONFields) (b : DiscordBot) : Except String DiscordBot :=
  match kvs with
  | .nil => .ok b
  | .cons k v rest =>
    match b with
    | .mk id acc =>
      if keyIs k "id" then
        match decString v id with
        | .ok s => decDiscordBotFields rest (.mk s acc)
        | .error e => .error e
      else if keyIs k "account" then
        match v with
        | .null => decDiscordBotFields rest (.mk id none)
        | _ =>
          match decDiscordAccount v (acc.getD DiscordAccount.zero) with
          | .ok a => decDiscordBotFields rest (.mk id (some a))
          | .error e => .error e
      else decDiscordBotFields rest b
/-- Decoding into a `types.DiscordAccount` holding `a`. -/
def decDiscordAccount (j : JSON) (a : DiscordAccount) : Except String DiscordAccount :=
  match j with
  | .null => .ok a
  | .obj kvs => decDiscordAccountFields kvs a
  | _ => .error unmarshalTypeError
/-- Decoding the members of an object into a `types.DiscordAccount`. -/
def decDiscordAccountFields (kvs : JSONFields) (a : DiscordAccount) :
    Except String DiscordAccount :=
  match kvs with
  | .nil => .ok a
  | .cons k v rest =>
    match a with
    | .mk id did un disc own bot =>
      if keyIs k "id" then
        match decString v id with
        | .ok s => decDiscordAccountFields rest (.mk s did un disc own bot)
        | .error e => .error e
      else if keyIs k "discordId" then
        match decString v did with
        | .ok s => decDiscordAccountFields rest (.mk id s un disc own bot)
        | .error e => .error e
      else if keyIs k "username" then
        match decString v un with
        | .ok s => decDiscordAccountFields rest (.mk id did s disc own bot)
        | .error e => .error e
      else if keyIs k "discriminator" then
        match decString v disc with
        | .ok s => decDiscordAccountFields rest (.mk id did un s own bot)
        | .error e => .error e
      else if keyIs k "owner" then
        match decUserPtr v own with
        | .ok o => decDiscordAccountFields rest (.mk id did un disc o bot)
        | .error e => .error e
      else if keyIs k "bot" then
        match v with
        | .null => decDiscordAccountFields rest (.mk id did un disc own none)
        | _ =>
          match decDiscordBot v (bot.getD DiscordBot.zero) with
          | .ok b => decDiscordAccountFields rest (.mk id did un disc own (some b))
          | .error e => .error e
      else decDiscordAccountFields rest a
end

/-- Decoding the members of an object into a record whose only field has the
JSON name `name`; the record is represented by that field. -/
def decOnlyField {α : Type} (name : String) (dec : JSON → α → Except String α) :
    JSONFields → α → Except String α
  | .nil, a => .ok a
  | .cons k v rest, a =>
    if keyIs k name then
      match dec v a with
      | .ok a1 => decOnlyField name dec rest a1
      | .error e => .error e
    else decOnlyField name dec rest a

/-- Decoding into a record whose only field has the JSON name `name`. -/
def decWrapper {α : Type} (name : String) (dec : JSON → α → Except String α)
    (j : JSON) (a : α) : Except String α :=
  match j with
  | .null => .ok a
  | .obj kvs => decOnlyField name dec kvs a
  | _ => .error unmarshalTypeError

/-- Decoding the elements of an array into a slice holding `cur`: an element
is decoded into the one already at its index, or into a zero value. (Go may
reuse the memory of an element beyond a slice that it shortened before; that
concerns the indices from 1 on, which no handler reads.) -/
def decElems {α : Type} (dec : JSON → α → Except String α) (zero : α) :
    JSONList → List α → Except String (List α)
  | .nil, _ => .ok []
  | .cons x xs, cur =>
    match dec x (cur.headD zero) with
    | .error e => .error e
    | .ok a =>
      match decElems dec zero xs cur.tail with
      | .ok as => .ok (a :: as)
      | .error e => .error e

/-- Decoding into a slice field holding `cur`. -/
def decSlice {α : Type} (dec : JSON → α → Except String α) (zero : α)
    (j : JSON) (cur : List α) : Except String (List α) :=
  match j with
  | .null => .ok []
  | .arr xs => decElems dec zero xs cur
  | _ => .error unmarshalTypeError

/-- The call `json.Unmarshal(body, &respData)` with `respData` a pointer to a
fresh record: the literal `null` sets `respData` itself to nil (`none`),
any other document is decoded into the record. -/
def unmarshalInto {α : Type} (dec : JSON → α → Except String α) (zero : α)
    (j : JSON) : Except String (Option α) :=
  match j with
  | .null => .ok none
  | _ =>
    match dec j zero with
    | .ok a => .ok (some a)
    | .error e => .error e

/-- The record `createUserResp`, represented by `Data.CreateUser`. -/
abbrev createUserResp : Type := User

/-- The record `readUserResp`, represented by the `Node` of each element of
`Data.Users.Edges`. -/
abbrev readUserResp : Type := List User

/-- The record `updateUserResp`, represented by `Data.UpdateUser`. -/
abbrev updateUserResp : Type := User

/-- The record `deleteUserResp`, represented by `Data.DeleteUser`. -/
abbrev deleteUserResp : Type := User

/-- The record `currentUserResp`, represented by `Data.CurrentUser`. -/
abbrev currentUserResp : Type := Option User

/-- The record `createDiscordAccountResp`, represented by
`Data.CreateDiscordAccount`. -/
abbrev createDiscordAccountResp : Type := DiscordAccount

/-- The record `readDiscordAccountResp`, represented by the `Node` of each
element of `Data.DiscordAccounts.Edges`. -/
abbrev readDiscordAccountResp : Type := List DiscordAccount

/-- The record `updateDiscordAccountResp`, represented by
`Data.UpdateDiscordAccount`. -/
abbrev updateDiscordAccountResp : Type := DiscordAccount

/-- The record `deleteDiscordAccountResp`, represented by
`Data.DeleteDiscordAccount`. -/
abbrev deleteDiscordAccountResp : Type := DiscordAccount

/-- Unmarshalling into a `*createUserResp`. -/
def unmarshalCreateUserResp : JSON → Except String (Option createUserResp) :=
  unmarshalInto (decWrapper "data" (decWrapper "createUser" decUser)) User.zero

/-- Unmarshalling into a `*readUserResp`; the field `Node` carries no tag. -/
def unmarshalReadUserResp : JSON → Except String (Option readUserResp) :=
  unmarshalInto
    (decWrapper "data" (decWrapper "users" (decWrapper "edges"
      (decSlice (decWrapper "Node" decUser) User.zero)))) []

/-- Unmarshalling into a `*updateUserResp`. -/
def unmarshalUpdateUserResp : JSON → Except String (Option updateUserResp) :=
  unmarshalInto (decWrapper "data" (decWrapper "updateUser" decUser)) User.zero

/-- Unmarshalling into a `*deleteUserResp`. -/
def unmarshalDeleteUserResp : JSON → Except String (Option deleteUserResp) :=
  unmarshalInto (decWrapper "data" (decWrapper "deleteUser" decUser)) User.zero

/-- Unmarshalling into a `*currentUserResp`. -/
def unmarshalCurrentUserResp : JSON → Except String (Option currentUserResp) :=
  unmarshalInto (decWrapper "data" (decWrapper "currentUser" decUserPtr)) none

/-- Unmarshalling into a `*createDiscordAccountResp`. -/
def unmarshalCreateDiscordAccountResp :
    JSON → Except String (Option createDiscordAccountResp) :=
  unmarshalInto (decWrapper "data" (decWrapper "createDiscordAccount" decDiscordAccount))
    DiscordAccount.zero

/-- Unmarshalling into a `*readDiscordAccountResp`; the tag of the field
under `data` is `DiscordAccounts`. -/
def unmarshalReadDiscordAccountResp :
    JSON → Except String (Option readDiscordAccountResp) :=
  unmarshalInto
    (decWrapper "data" (decWrapper "DiscordAccounts" (decWrapper "edges"
      (decSlice (decWrapper "Node" decDiscordAccount) DiscordAccount.zero)))) []

/-- Unmarshalling into a `*updateDiscordAccountResp`. -/
def unmarshalUpdateDiscordAccountResp :
    JSON → Except String (Option updateDiscordAccountResp) :=
  unmarshalInto (decWrapper "data" (decWrapper "updateDiscordAccount" decDiscordAccount))
    DiscordAccount.zero

/-- Unmarshalling into a `*deleteDiscordAccountResp`. -/
def unmarshalDeleteDiscordAccountResp :
    JSON → Except String (Option deleteDiscordAccountResp) :=
  unmarshalInto (decWrapper "data" (decWrapper "deleteDiscordAccount" decDiscordAccount))
    DiscordAccount.zero

/-! ## Diagnostics (`diag`) -/

/-- The severity of a diagnostic; `Error` is the zero value. -/
inductive Severity where
  | Error : Severity
  | Warning : Severity
deriving DecidableEq, Repr

/-- A `diag.Diagnostic`. -/
structure Diagnostic where
  Severity : Severity
  Summary : String
  Detail : String
deriving DecidableEq, Repr

/-- The list `diag.Diagnostics`. -/
abbrev Diagnostics : Type := List Diagnostic

/-- The literal `diag.Diagnostic{Summary: summary}`. -/
def Diagnostic.withSummary (summary : String) : Diagnostic := ⟨.Error, summary, ""⟩

/-- The call `diag.FromErr(err)` for a non-nil error with message `err`. -/
def diag.FromErr (err : String) : Diagnostics := [⟨.Error, err, ""⟩]

/-- What a handler call ends in: a list of diagnostics, or a run-time panic
(a nil dereference). -/
inductive Outcome where
  | panic : Outcome
  | returned (diags : Diagnostics) : Outcome
deriving DecidableEq, Repr

/-! ## Resource data (`schema.ResourceData`) -/

/-- The host's record of one resource instance: the identity `d.Id()`, the
value of each attribute (`none` while unset or after nil was written), the
host's change detection, and the error, if any, that writing an attribute
fails with. -/
structure ResourceData where
  id : String
  attrs : String → Option String
  changed : String → Bool
  setErr : String → Option String

/-- The call `d.Id()`. -/
def ResourceData.Id (d : ResourceData) : String := d.id

/-- The call `d.SetId(v)`: it stores the identity and writes the attribute
`id` as well. -/
def ResourceData.SetId (d : ResourceData) (v : String) : ResourceData :=
  { d with id := v, attrs := fun k => if k = "id" then some v else d.attrs k }

/-- The expression `d.Get(key).(string)` for a string attribute of the
schema: the empty string while the attribute is unset. -/
def ResourceData.Get (d : ResourceData) (key : String) : String := (d.attrs key).getD ""

/-- The call `d.HasChange(key)`. -/
def ResourceData.HasChange (d : ResourceData) (key : String) : Bool := d.changed key

/-- The call `d.Set(key, value)` with a string (`some s`), a pointer to a
string, or a nil pointer (`none`). -/
def ResourceData.Set (d : ResourceData) (key : String) (value : Option String) :
    Except String ResourceData :=
  match d.setErr key with
  | some err => .error err
  | none => .ok { d with attrs := fun k => if k = key then value else d.attrs k }

/-! ## The API client -/

/-- A value stored in the `variables` map of a request: a string, or the
`input` map, whose values are strings or a nil `*string` (`none`), which
`json.Marshal` writes as `null`. -/
inductive VarValue where
  | str (s : String) : VarValue
  | input (m : GoMap (Option String)) : VarValue

/-- The map marshalled as the body of a request. Marshalling it cannot
fail. -/
structure ReqBody where
  operationName : Option String
  query : String
  variablesMap : GoMap VarValue

/-- The arguments of `client.httpClient.Post`. -/
structure Request where
  url : String
  contentType : String
  body : ReqBody

/-- What a POST comes to: `Post` fails, reading the body fails, the body is
not well-formed JSON (`json.Unmarshal` fails with a syntax error), or the
body is a JSON document. -/
inductive Reply where
  | postErr (err : String) : Reply
  | readErr (err : String) : Reply
  | invalid (err : String) : Reply
  | json (j : JSON) : Reply

/-- The record `apiClient`; the HTTP client answers each request from the
state `σ` of the world behind it. -/
structure apiClient (σ : Type) where
  httpClient : σ → Request → Reply × σ
  apiUrl : String

/-- The call `client.httpClient.Post(client.apiUrl, "application/json", reqBody)`
followed by `ioutil.ReadAll`. -/
def apiClient.Post {σ : Type} (client : apiClient σ) (s : σ) (reqBody : ReqBody) :
    Reply × σ :=
  client.httpClient s ⟨client.apiUrl, "application/json", reqBody⟩

/-- The error checks after `Post`, `ReadAll` and `json.Unmarshal`, in that
order. -/
def Reply.decode {α : Type} (unmarshal : JSON → Except String (Option α)) :
    Reply → Except String (Option α)
  | .postErr err => .error err
  | .readErr err => .error err
  | .invalid err => .error err
  | .json j => unmarshal j

/-! ## The user resource (`resource_user.go`) -/

/-- The query of `resourceUserCreate`. -/
def createUserQuery : String :=
  "\n\t\t\tmutation($input: CreateUserInput!) \x7b\n\t\t\t\tcreateUser(input: $input) \x7b\n\t\t\t  \t\tid\n\t\t\t  \t\tusername\n\t\t\t  \t\tavatarUrl\n\t\t\t\t\x7d\n\t\t  \t\x7d\n\t\t"

/-- The query of `resourceUserRead`. -/
def readUserQuery : String :=
  "\n\t\t\tquery($userId: ID!) \x7b\n\t\t\t\tusers(where: \x7b id: $userId \x7d) \x7b\n\t\t\t  \t\tedges \x7b\n\t\t\t\t\t\tnode \x7b\n\t\t\t\t  \t\t\tid\n\t\t\t\t  \t\t\tusername\n\t\t\t\t\t\t\x7d\n\t\t\t  \t\t\x7d\n\t\t\t\t\x7d\n\t\t\t\x7d\n\t\t"

/-- The query of `resourceUserUpdate`. -/
def updateUserQuery : String :=
  "\n\t\t\tmutation($userId: ID!, $input: UpdateUserInput!) \x7b\n\t\t\t\tupdateUser(id: $userId, input: $input) \x7b\n\t\t\t  \t\tid\n\t\t\t  \t\tusername\n\t\t\t  \t\tavatarUrl\n\t\t\t\t\x7d\n\t\t  \t\x7d\n\t\t"

/-- The query of `resourceUserDelete`. -/
def deleteUserQuery : String :=
  "\n\t\t\tmutation($userId: ID!) \x7b\n\t\t\t\tdeleteUser(id: $userId) \x7b\n\t\t\t\t\tid\n\t\t\t\t\tusername\n\t\t\t\t\tavatarUrl\n\t\t\t\t\x7d\n\t\t\t\x7d\n\t\t"

/-- The diagnostic of `resourceUserRead` for a response without edges. -/
def userNotFound : Diagnostic :=
  Diagnostic.withSummary "Unable to refresh user state, unable to find requested user."

/-- The request body built by `resourceUserRead`. -/
def resourceUserReadRequest (d : ResourceData) : ReqBody :=
  ⟨none, readUserQuery, GoMap.empty.set "userId" (.str d.Id)⟩

/-- The handler `resourceUserRead`. -/
def resourceUserRead {σ : Type} (client : apiClient σ) (s : σ) (d : ResourceData) :
    Outcome × ResourceData × σ :=
  match client.Post s (resourceUserReadRequest d) with
  | (reply, s1) =>
    match reply.decode unmarshalReadUserResp with
    | .error err => (.returned (diag.FromErr err), d, s1)
    | .ok none => (.panic, d, s1)
    | .ok (some []) => (.returned [userNotFound], d, s1)
    | .ok (some (user :: _)) =>
      match d.Set "id" (some user.ID) with
      | .error err => (.returned (diag.FromErr err), d, s1)
      | .ok d1 =>
        match d1.Set "username" (some user.Username) with
        | .error err => (.returned (diag.FromErr err), d1, s1)
        | .ok d2 =>
          match d2.Set "avatar_url" user.AvatarURL with
          | .error err => (.returned (diag.FromErr err), d2, s1)
          | .ok d3 => (.returned [], d3, s1)

/-- The map `variables` built by `resourceUserCreate`. -/
def resourceUserCreateInput (d : ResourceData) : GoMap (Option String) :=
  let input : GoMap (Option String) :=
    GoMap.empty.set "username" (some (d.Get "username"))
  let avatarUrl := d.Get "avatar_url"
  if avatarUrl ≠ "" then input.set "avatarUrl" (some avatarUrl) else input

/-- The request body built by `resourceUserCreate`. -/
def resourceUserCreateRequest (d : ResourceData) : ReqBody :=
  ⟨none, createUserQuery, GoMap.empty.set "input" (.input (resourceUserCreateInput d))⟩

/-- The handler `resourceUserCreate`. -/
def resourceUserCreate {σ : Type} (client : apiClient σ) (s : σ) (d : ResourceData) :
    Outcome × ResourceData × σ :=
  match client.Post s (resourceUserCreateRequest d) with
  | (reply, s1) =>
    match reply.decode unmarshalCreateUserResp with
    | .error err => (.returned (diag.FromErr err), d, s1)
    | .ok none => (.panic, d, s1)
    | .ok (some respData) => resourceUserRead client s1 (d.SetId respData.ID)

/-- The map `variables` built by `resourceUserUpdate`. -/
def resourceUserUpdateInput (d : ResourceData) : GoMap (Option String) :=
  let input : GoMap (Option String) := GoMap.empty
  let input :=
    if d.HasChange "username" then input.set "username" (some (d.Get "username"))
    else input
  if d.HasChange "avatar_url" then
    let avatarUrlVal := d.Get "avatar_url"
    let avatarUrl : Option String := if avatarUrlVal = "" then none else some avatarUrlVal
    input.set "avatarUrl" avatarUrl
  else input

/-- The request body built by `resourceUserUpdate`. -/
def resourceUserUpdateRequest (d : ResourceData) : ReqBody :=
  ⟨none, updateUserQuery,
    (GoMap.empty.set "userId" (.str d.Id)).set "input" (.input (resourceUserUpdateInput d))⟩

/-- The handler `resourceUserUpdate`; the decoded response is not looked at. -/
def resourceUserUpdate {σ : Type} (client : apiClient σ) (s : σ) (d : ResourceData) :
    Outcome × ResourceData × σ :=
  match client.Post s (resourceUserUpdateRequest d) with
  | (reply, s1) =>
    match reply.decode unmarshalUpdateUserResp with
    | .error err => (.returned (diag.FromErr err), d, s1)
    | .ok _ => resourceUserRead client s1 d

/-- The request body built by `resourceUserDelete`. -/
def resourceUserDeleteRequest (d : ResourceData) : ReqBody :=
  ⟨none, deleteUserQuery, GoMap.empty.set "userId" (.str d.Id)⟩

/-- The handler `resourceUserDelete`; the decoded response is not looked at. -/
def resourceUserDelete {σ : Type} (client : apiClient σ) (s : σ) (d : ResourceData) :
    Outcome × ResourceData × σ :=
  match client.Post s (resourceUserDeleteRequest d) with
  | (reply, s1) =>
    match reply.decode unmarshalDeleteUserResp with
    | .error err => (.returned (diag.FromErr err), d, s1)
    | .ok _ => (.returned [], d.SetId "", s1)

/-! ## The Discord account resource (`resource_discord_account.go`) -/

/-- The query of `resourceDiscordAccountCreate`. -/
def createDiscordAccountQuery : String :=
  "\n\t\t\tmutation($input: CreateDiscordAccountInput!) \x7b\n\t\t\t\tcreateDiscordAccount(input: $input) \x7b\n\t\t\t\t\tid\n\t\t\t\t\tdiscordId\n\t\t\t\t\tusername\n\t\t\t\t\tdiscriminator\n\t\t\t\t\towner \x7b\n\t\t\t\t\t\tid\n\t\t\t\t\t\tusername\n\t\t\t\t\t\tavatarUrl\n\t\t\t\t\t\x7d\n\t\t\t\t\tbot \x7b\n\t\t\t\t\t\tid\n\t\t\t\t\t\x7d\n\t\t\t\t\x7d\n\t\t\t\x7d\n\t\t"

/-- The query of `resourceDiscordAccountRead`. -/
def readDiscordAccountQuery : String :=
  "\n\t\t\tquery($accountId: ID!) \x7b\n\t\t\t\tdiscordAccounts(where: \x7b id: $accountId \x7d) \x7b\n\t\t\t\t\tedges \x7b\n\t\t\t\t\t\tnode \x7b\n\t\t\t\t\t\t\tid\n\t\t\t\t\t\t\tdiscordId\n\t\t\t\t\t\t\tusername\n\t\t\t\t\t\t\tdiscriminator\n\t\t\t\t\t\t\towner \x7b\n\t\t\t\t\t\t\t\tid\n\t\t\t\t\t\t\t\tusername\n\t\t\t\t\t\t\t\tavatarUrl\n\t\t\t\t\t\t\t\x7d\n\t\t\t\t\t\t\tbot \x7b\n\t\t\t\t\t\t\t\tid\n\t\t\t\t\t\t\t\x7d\n\t\t\t\t\t\t\x7d\n\t\t\t\t\t\x7d\n\t\t\t\t\x7d\n\t\t\t\x7d\t\t  \n\t\t"

/-- The query of `resourceDiscordAccountUpdate`. -/
def updateDiscordAccountQuery : String :=
  "\n\t\t\tmutation($accountId: ID!, $input: UpdateDiscordAccountInput!) \x7b\n\t\t\t\tupdateDiscordAccount(id: $accountId, input: $input) \x7b\n\t\t\t\t\tid\n\t\t\t\t\tdiscordId\n\t\t\t\t\tusername\n\t\t\t\t\tdiscriminator\n\t\t\t\t\towner \x7b\n\t\t\t\t\t\tid\n\t\t\t\t\t\tusername\n\t\t\t\t\t\tavatarUrl\n\t\t\t\t\t\x7d\n\t\t\t\t\tbot \x7b\n\t\t\t\t\t\tid\n\t\t\t\t\t\x7d\n\t\t\t\t\x7d\n\t\t  \t\x7d\n\t\t"

/-- The query of `resourceDiscordAccountDelete`. -/
def deleteDiscordAccountQuery : String :=
  "\n\t\t\tmutation($accountId: ID!) \x7b\n\t\t\t\tdeleteDiscordAccount(id: $accountId) \x7b\n\t\t\t\t\tid\n\t\t\t\t\tdiscordId\n\t\t\t\t\tusername\n\t\t\t\t\tdiscriminator\n\t\t\t\t\towner \x7b\n\t\t\t\t\t\tid\n\t\t\t\t\t\tusername\n\t\t\t\t\t\tavatarUrl\n\t\t\t\t\t\x7d\n\t\t\t\t\tbot \x7b\n\t\t\t\t\t\tid\n\t\t\t\t\t\x7d\n\t\t\t\t\x7d\n\t\t\t\x7d\n\t\t"

/-- The diagnostic of `resourceDiscordAccountRead` for a response without
edges. -/
def discordAccountNotFound : Diagnostic :=
  Diagnostic.withSummary
    "Unable to refresh discord account state, unable to find requested account."

/-- The request body built by `resourceDiscordAccountRead`. -/
def resourceDiscordAccountReadRequest (d : ResourceData) : ReqBody :=
  ⟨none, readDiscordAccountQuery, GoMap.empty.set "accountId" (.str d.Id)⟩

/-- The last two assignments of `resourceDiscordAccountRead`: `bot` is
written only when `account.Bot` is not nil. -/
def setDiscordAccountBot (account : DiscordAccount) (d : ResourceData) :
    Except String ResourceData :=
  match account.Bot with
  | some bot => d.Set "bot" (some bot.ID)
  | none => .ok d

/-- The assignment of `owner` in `resourceDiscordAccountRead`: it is made
only when `account.Owner` is not nil. -/
def setDiscordAccountOwner (account : DiscordAccount) (d : ResourceData) :
    Except String ResourceData :=
  match account.Owner with
  | some owner => d.Set "owner" (some owner.ID)
  | none => .ok d

/-- The handler `resourceDiscordAccountRead`. -/
def resourceDiscordAccountRead {σ : Type} (client : apiClient σ) (s : σ)
    (d : ResourceData) : Outcome × ResourceData × σ :=
  match client.Post s (resourceDiscordAccountReadRequest d) with
  | (reply, s1) =>
    match reply.decode unmarshalReadDiscordAccountResp with
    | .error err => (.returned (diag.FromErr err), d, s1)
    | .ok none => (.panic, d, s1)
    | .ok (some []) => (.returned [discordAccountNotFound], d, s1)
    | .ok (some (account :: _)) =>
      match d.Set "id" (some account.ID) with
      | .error err => (.returned (diag.FromErr err), d, s1)
      | .ok d1 =>
        match d1.Set "discord_id" (some account.DiscordID) with
        | .error err => (.returned (diag.FromErr err), d1, s1)
        | .ok d2 =>
          match d2.Set "username" (some account.Username) with
          | .error err => (.returned (diag.FromErr err), d2, s1)
          | .ok d3 =>
            match d3.Set "discriminator" (some account.Discriminator) with
            | .error err => (.returned (diag.FromErr err), d3, s1)
            | .ok d4 =>
              match setDiscordAccountOwner account d4 with
              | .error err => (.returned (diag.FromErr err), d4, s1)
              | .ok d5 =>
                match setDiscordAccountBot account d5 with
                | .error err => (.returned (diag.FromErr err), d5, s1)
                | .ok d6 => (.returned [], d6, s1)

/-- The map `variables` built by `resourceDiscordAccountCreate`. -/
def resourceDiscordAccountCreateInput (d : ResourceData) : GoMap (Option String) :=
  let input : GoMap (Option String) :=
    ((GoMap.empty.set "discordId" (some (d.Get "discord_id"))).set
      "username" (some (d.Get "username"))).set
      "discriminator" (some (d.Get "discriminator"))
  let owner := d.Get "owner"
  if owner ≠ "" then input.set "owner" (some owner) else input

/-- The request body built by `resourceDiscordAccountCreate`. -/
def resourceDiscordAccountCreateRequest (d : ResourceData) : ReqBody :=
  ⟨none, createDiscordAccountQuery,
    GoMap.empty.set "input" (.input (resourceDiscordAccountCreateInput d))⟩

/-- The handler `resourceDiscordAccountCreate`. -/
def resourceDiscordAccountCreate {σ : Type} (client : apiClient σ) (s : σ)
    (d : ResourceData) : Outcome × ResourceData × σ :=
  match client.Post s (resourceDiscordAccountCreateRequest d) with
  | (reply, s1) =>
    match reply.decode unmarshalCreateDiscordAccountResp with
    | .error err => (.returned (diag.FromErr err), d, s1)
    | .ok none => (.panic, d, s1)
    | .ok (some respData) => resourceDiscordAccountRead client s1 (d.SetId respData.ID)

/-- The map `variables` built by `resourceDiscordAccountUpdate`. -/
def resourceDiscordAccountUpdateInput (d : ResourceData) : GoMap (Option String) :=
  let input : GoMap (Option String) := GoMap.empty
  let input :=
    if d.HasChange "username" then input.set "username" (some (d.Get "username"))
    else input
  let input :=
    if d.HasChange "discriminator" then
      input.set "discriminator" (some (d.Get "discriminator"))
    else input
  if d.HasChange "owner" then input.set "owner" (some (d.Get "owner"))
  else input

/-- The request body built by `resourceDiscordAccountUpdate`. -/
def resourceDiscordAccountUpdateRequest (d : ResourceData) : ReqBody :=
  ⟨none, updateDiscordAccountQuery,
    (GoMap.empty.set "accountId" (.str d.Id)).set "input"
      (.input (resourceDiscordAccountUpdateInput d))⟩

/-- The handler `resourceDiscordAccountUpdate`; the decoded response is not
looked at. -/
def resourceDiscordAccountUpdate {σ : Type} (client : apiClient σ) (s : σ)
    (d : ResourceData) : Outcome × ResourceData × σ :=
  match client.Post s (resourceDiscordAccountUpdateRequest d) with
  | (reply, s1) =>
    match reply.decode unmarshalUpdateDiscordAccountResp with
    | .error err => (.returned (diag.FromErr err), d, s1)
    | .ok _ => resourceDiscordAccountRead client s1 d

/-- The request body built by `resourceDiscordAccountDelete`. -/
def resourceDiscordAccountDeleteRequest (d : ResourceData) : ReqBody :=
  ⟨none, deleteDiscordAccountQuery, GoMap.empty.set "accountId" (.str d.Id)⟩

/-- The handler `resourceDiscordAccountDelete`; the decoded response is not
looked at. -/
def resourceDiscordAccountDelete {σ : Type} (client : apiClient σ) (s : σ)
    (d : ResourceData) : Outcome × ResourceData × σ :=
  match client.Post s (resourceDiscordAccountDeleteRequest d) with
  | (reply, s1) =>
    match reply.decode unmarshalDeleteDiscordAccountResp with
    | .error err => (.returned (diag.FromErr err), d, s1)
    | .ok _ => (.returned [], d.SetId "", s1)

/-! ## The current-user data source (`data_source_current_user.go`) -/

/-- The query of `dataSourceCurrentUserRead`. -/
def currentUserQuery : String :=
  "\n\t\t\t\x7b\n\t\t\t\tcurrentUser \x7b\n\t\t\t\t\tid\n\t\t\t\t\tusername\n\t\t\t\t\tavatarUrl\n\t\t\t\t\x7d\n\t\t\t\x7d\n\t\t"

/-- The diagnostic of `dataSourceCurrentUserRead` for a nil `CurrentUser`. -/
def currentUserNotFound : Diagnostic :=
  Diagnostic.withSummary
    "Failed to retrieve current user. Please ensure you've provided a valid api token."

/-- The request body built by `dataSourceCurrentUserRead`. -/
def dataSourceCurrentUserReadRequest : ReqBody :=
  ⟨none, currentUserQuery, GoMap.empty⟩

/-- The handler `dataSourceCurrentUserRead`. -/
def dataSourceCurrentUserRead {σ : Type} (client : apiClient σ) (s : σ)
    (d : ResourceData) : Outcome × ResourceData × σ :=
  match client.Post s dataSourceCurrentUserReadRequest with
  | (reply, s1) =>
    match reply.decode unmarshalCurrentUserResp with
    | .error err => (.returned (diag.FromErr err), d, s1)
    | .ok none => (.panic, d, s1)
    | .ok (some none) => (.returned [currentUserNotFound], d, s1)
    | .ok (some (some currentUser)) =>
      let d0 := d.SetId currentUser.ID
      match d0.Set "id" (some currentUser.ID) with
      | .error err => (.returned (diag.FromErr err), d0, s1)
      | .ok d1 =>
        match d1.Set "username" (some currentUser.Username) with
        | .error err => (.returned (diag.FromErr err), d1, s1)
        | .ok d2 =>
          match d2.Set "avatar_url" currentUser.AvatarURL with
          | .error err => (.returned (diag.FromErr err), d2, s1)
          | .ok d3 => (.returned [], d3, s1)

/-! ## Observing the requests a handler sends -/

/-- The same client, keeping every request it is handed, oldest first. -/
def apiClient.recording {σ : Type} (client : apiClient σ) : apiClient (σ × List Request) :=
  ⟨fun st req =>
      ((client.httpClient st.1 req).1, ((client.httpClient st.1 req).2, st.2 ++ [req])),
    client.apiUrl⟩

/-- The requests a handler sends, in order, when run with `client` from the
state `s` on the resource data `d`. -/
def requestsSent {σ : Type}
    (handler : apiClient (σ × List Request) → σ × List Request → ResourceData →
      Outcome × ResourceData × (σ × List Request))
    (client : apiClient σ) (s : σ) (d : ResourceData) : List Request :=
  (handler client.recording (s, []) d).2.2.2

/-! ## The provider (`provider.go`) -/

/-- The value types of `schema.ValueType`. -/
inductive ValueType where
  | TypeBool : ValueType
  | TypeInt : ValueType
  | TypeFloat : ValueType
  | TypeString : ValueType
  | TypeList : ValueType
  | TypeMap : ValueType
  | TypeSet : ValueType
deriving DecidableEq, Repr

/-- The fields of `schema.Schema` that the provider sets; `DefaultFunc` is
the environment variable that `schema.EnvDefaultFunc` reads. -/
structure Schema where
  Description : String := ""
  ValueType : ValueType := .TypeString
  Required : Bool := false
  Optional : Bool := false
  Computed : Bool := false
  ForceNew : Bool := false
  Sensitive : Bool := false
  Default : Option String := none
  DefaultFunc : Option String := none
deriving DecidableEq, Repr

/-- The handlers a `schema.Resource` can be bound to. -/
inductive Handler where
  | resourceUserCreate : Handler
  | resourceUserRead : Handler
  | resourceUserUpdate : Handler
  | resourceUserDelete : Handler
  | resourceDiscordAccountCreate : Handler
  | resourceDiscordAccountRead : Handler
  | resourceDiscordAccountUpdate : Handler
  | resourceDiscordAccountDelete : Handler
  | dataSourceCurrentUserRead : Handler
deriving DecidableEq, Repr

/-- The fields of `schema.Resource` that the provider sets; a map literal is
the list of its entries. -/
structure Resource where
  Description : String
  CreateContext : Option Handler := none
  ReadContext : Option Handler := none
  UpdateContext : Option Handler := none
  DeleteContext : Option Handler := none
  Schema : List (String × Schema)
deriving DecidableEq, Repr

/-- The function `resourceUser`. -/
def resourceUser : Resource :=
  { Description := "Create and manage a GrackDB User."
    CreateContext := some .resourceUserCreate
    ReadContext := some .resourceUserRead
    UpdateContext := some .resourceUserUpdate
    DeleteContext := some .resourceUserDelete
    Schema := [
      ("id", { Description := "Unique ID for this user.", Computed := true }),
      ("username", { Description := "Username for this user.", Required := true }),
      ("avatar_url", { Description := "URL to this user's avatar.", Optional := true })] }

/-- The function `resourceDiscordAccount`. -/
def resourceDiscordAccount : Resource :=
  { Description := "Create and manage a GrackDB Discord account."
    CreateContext := some .resourceDiscordAccountCreate
    ReadContext := some .resourceDiscordAccountRead
    UpdateContext := some .resourceDiscordAccountUpdate
    DeleteContext := some .resourceDiscordAccountDelete
    Schema := [
      ("id", { Description := "Unique ID for this Discord account.", Computed := true }),
      ("discord_id",
        { Description := "Discord snowflake for this account.", Required := true, ForceNew := true }),
      ("username", { Description := "Username for this account.", Required := true }),
      ("discriminator", { Description := "Discriminator for this account.", Required := true }),
      ("owner", { Description := "ID of the User that owns this account.", Optional := true }),
      ("bot", { Description := "ID of the bot that owns this account.", Computed := true })] }

/-- The function `dataSourceCurrentUser`. -/
def dataSourceCurrentUser : Resource :=
  { Description := "Get details on the current authenticated user."
    ReadContext := some .dataSourceCurrentUserRead
    Schema := [
      ("id", { Description := "Unique ID for this user.", Computed := true }),
      ("username", { Description := "Unique username for this user.", Computed := true }),
      ("avatar_url",
        { Description := "URL for this user's avatar.", Optional := true, Computed := true })] }

/-- The fields of `schema.Provider` that `New` sets; `ConfigureContextFunc`
holds the version that `configure` is called with. -/
structure Provider where
  Schema : List (String × Schema)
  DataSourcesMap : List (String × Resource)
  ResourcesMap : List (String × Resource)
  ConfigureContextFunc : Option String
deriving DecidableEq, Repr

/-- The provider that the function returned by `New(version)` builds. The
function `resourceScaffolding` is not among the sources; the resource it
returns is a parameter. -/
def New (resourceScaffolding : Resource) (version : String) : Provider :=
  { Schema := [
      ("api_url", { Optional := true, Default := some "https://grackdb.fogo.sh/query" }),
      ("token", { Optional := true, Sensitive := true, DefaultFunc := some "GRACKDB_TOKEN" })]
    DataSourcesMap := [("grackdb_current_user", dataSourceCurrentUser)]
    ResourcesMap := [("scaffolding_resource", resourceScaffolding)]
    ConfigureContextFunc := some version }

/-! ## Provider configuration (`provider.go`) -/

/-- A `http.Header`: the values stored under each key. The two keys the
provider sets are in canonical form already, so `Set` stores them as
written. -/
abbrev Header : Type := GoMap (List String)

/-- The call `h.Set(key, value)`. -/
def Header.Set (h : Header) (key value : String) : Header := GoMap.set h key [value]

/-- The transports the default client can hold in a provider process:
`http.DefaultTransport`, or a `withHeaderType` value around another
transport. -/
inductive RoundTripper where
  | DefaultTransport : RoundTripper
  | wrapper (Header : Header) (rt : RoundTripper) : RoundTripper

/-- The record `withHeaderType`. -/
structure withHeaderType where
  Header : Header
  rt : RoundTripper

/-- The function `withHeader`. -/
def withHeader (rt : Option RoundTripper) : withHeaderType :=
  ⟨GoMap.empty, rt.getD .DefaultTransport⟩

/-- The call `transport.Set(key, value)`, a method of the embedded header. -/
def withHeaderType.Set (h : withHeaderType) (key value : String) : withHeaderType :=
  { h with Header := GrackDB.Header.Set h.Header key value }

/-- A `withHeaderType` value stored as a `http.RoundTripper`. -/
def withHeaderType.asRoundTripper (h : withHeaderType) : RoundTripper :=
  .wrapper h.Header h.rt

/-- The loop `for k, v := range h.Header \x7b req.Header[k] = v \x7d`. -/
def overlay (h req : Header) : Header :=
  fun k =>
    match h k with
    | some v => some v
    | none => req k

/-- The method `RoundTrip` of a transport, applied to the header of a
request; the result is the header with which the request arrives at
`http.DefaultTransport`. -/
def RoundTripper.RoundTrip : RoundTripper → Header → Header
  | .DefaultTransport, req => req
  | .wrapper h rt, req => rt.RoundTrip (overlay h req)

/-- The method `withHeaderType.RoundTrip`. -/
def withHeaderType.RoundTrip (h : withHeaderType) (req : GrackDB.Header) : GrackDB.Header :=
  h.rt.RoundTrip (overlay h.Header req)

/-- The field of `http.Client` that the provider sets. -/
structure http.Client where
  Transport : Option RoundTripper

/-- The call `c.Post(url, contentType, body)`, as far as headers go: the
request carries `Content-Type` and goes through `c.Transport`, or through
`http.DefaultTransport` when that is nil. The result is the header with
which it arrives at `http.DefaultTransport`. -/
def http.Client.Post (c : http.Client) (contentType : String) : Header :=
  (c.Transport.getD .DefaultTransport).RoundTrip
    (Header.Set GoMap.empty "Content-Type" contentType)

/-- The process-wide variable `http.DefaultClient`. -/
structure Process where
  DefaultClient : http.Client

/-- A process in which nothing has touched `http.DefaultClient`. -/
def Process.fresh : Process := ⟨⟨none⟩⟩

/-- The field `httpClient` of the `apiClient` that `configure` returns: the
pointer `http.DefaultClient`. A request is sent by the default client as
the process has it at that time; `wire` is what `http.DefaultTransport`
does with a request and the header it arrives with. -/
def defaultClientPost {ω : Type} (wire : ω → Request → Header → Reply × ω) :
    Process × ω → Request → Reply × (Process × ω) :=
  fun st req =>
    ((wire st.2 req (st.1.DefaultClient.Post req.contentType)).1,
      (st.1, (wire st.2 req (st.1.DefaultClient.Post req.contentType)).2))

/-- The function returned by `configure(version, p)`, applied to the
provider's configuration `d` in the process `p`. The method `p.UserAgent`
of the plugin SDK is a parameter. The result is the returned client, the
returned diagnostics, and the process afterwards. -/
def configure {ω : Type} (UserAgent : String → String → String)
    (wire : ω → Request → Header → Reply × ω) (version : String) (d : ResourceData)
    (p : Process) : apiClient (Process × ω) × Diagnostics × Process :=
  let apiUrl := d.Get "api_url"
  let token := d.Get "token"
  let userAgent := UserAgent "terraform-provider-grackdb" version
  let httpClient := p.DefaultClient
  let transport := withHeader httpClient.Transport
  let transport := transport.Set "User-Agent" userAgent
  let transport :=
    if token ≠ "" then transport.Set "Authorization" ("Bearer " ++ token) else transport
  (⟨defaultClientPost wire, apiUrl⟩, [],
    { p with DefaultClient := { httpClient with Transport := some transport.asRoundTripper } })

/-- A base transport that keeps the header of every request arriving at it,
oldest first, and answers none. -/
def headerLog : List Header → Request → Header → Reply × List Header :=
  fun log _ h => (.postErr "dial tcp: connection refused", log ++ [h])

/-! ## A model server

A server as the round-trip property describes it: it stores the fields a
create mutation sends under a fresh id, and it answers a query with the
fields the query text names.
-/

/-- Whether the characters `w` occur, in a row, in the given text. -/
def occursIn (w : List Char) : List Char → Bool
  | [] => w.isEmpty
  | c :: cs => w.isPrefixOf (c :: cs) || occursIn w cs

/-- Whether the query text `q` names `word`. -/
def mentions (q word : String) : Bool := occursIn word.data q.data

/-- A nullable string as a JSON value. -/
def JSON.ofOption : Option String → JSON
  | none => .null
  | some s => .str s

/-- The object holding those of `fields` that the query `q` names. -/
def selectFields (q : String) (fields : List (String × JSON)) : JSON :=
  JSON.ofFields (fields.filter (fun kv => mentions q kv.1))

/-- A user as the server returns it to the query `q`. -/
def userNode (q : String) (u : User) : JSON :=
  selectFields q
    [("id", .str u.ID), ("username", .str u.Username), ("avatarUrl", JSON.ofOption u.AvatarURL)]

/-- A Discord account as the server stores it: the owner by its id. -/
structure StoredAccount where
  ID : String
  DiscordID : String
  Username : String
  Discriminator : String
  Owner : Option String
deriving DecidableEq, Repr

/-- The state of the model server. -/
structure ModelServer where
  nextId : Nat
  users : List User
  accounts : List StoredAccount
deriving DecidableEq, Repr

/-- The server without any entity. -/
def ModelServer.empty : ModelServer := ⟨0, [], []⟩

/-- The owner of an account as the server returns it to the query `q`. -/
def ModelServer.ownerNode (sv : ModelServer) (q : String) (ownerId : String) : JSON :=
  match sv.users.find? (fun u => u.ID == ownerId) with
  | some u => userNode q u
  | none => userNode q ⟨ownerId, "", none⟩

/-- A Discord account as the server returns it to the query `q`; no account
made through this client has a bot. -/
def ModelServer.accountNode (sv : ModelServer) (q : String) (a : StoredAccount) : JSON :=
  selectFields q
    [("id", .str a.ID), ("discordId", .str a.DiscordID), ("username", .str a.Username),
      ("discriminator", .str a.Discriminator),
      ("owner", match a.Owner with
        | none => .null
        | some o => sv.ownerNode q o),
      ("bot", .null)]

/-- The string sent under `k` in an `input` object, if any. -/
def inputField (m : GoMap (Option String)) (k : String) : Option String := (m k).join

/-- The response `\x7b"data": \x7bname: value\x7d\x7d`. -/
def dataReply (name : String) (value : JSON) : Reply :=
  .json (JSON.ofFields [("data", JSON.ofFields [(name, value)])])

/-- The list of edges around the given nodes. -/
def edgesOf (nodes : List JSON) : JSON :=
  JSON.ofFields [("edges", JSON.ofList (nodes.map (fun n => JSON.ofFields [("node", n)])))]

/-- The server's answer to a request, and its state afterwards. -/
def ModelServer.handle (sv : ModelServer) (req : Request) : Reply × ModelServer :=
  let q := req.body.query
  if mentions q "createUser(" then
    match req.body.variablesMap "input" with
    | some (.input m) =>
      let u : User :=
        ⟨"user-" ++ toString sv.nextId, (inputField m "username").getD "",
          inputField m "avatarUrl"⟩
      (dataReply "createUser" (userNode q u),
        { sv with nextId := sv.nextId + 1, users := sv.users ++ [u] })
    | _ => (dataReply "createUser" .null, sv)
  else if mentions q "users(" then
    match req.body.variablesMap "userId" with
    | some (.str id) =>
      (dataReply "users"
        (edgesOf ((sv.users.filter (fun u => u.ID == id)).map (userNode q))), sv)
    | _ => (dataReply "users" .null, sv)
  else if mentions q "createDiscordAccount(" then
    match req.body.variablesMap "input" with
    | some (.input m) =>
      let a : StoredAccount :=
        ⟨"account-" ++ toString sv.nextId, (inputField m "discordId").getD "",
          (inputField m "username").getD "", (inputField m "discriminator").getD "",
          inputField m "owner"⟩
      (dataReply "createDiscordAccount" (sv.accountNode q a),
        { sv with nextId := sv.nextId + 1, accounts := sv.accounts ++ [a] })
    | _ => (dataReply "createDiscordAccount" .null, sv)
  else if mentions q "discordAccounts(" then
    match req.body.variablesMap "accountId" with
    | some (.str id) =>
      (dataReply "discordAccounts"
        (edgesOf ((sv.accounts.filter (fun a => a.ID == id)).map (sv.accountNode q))), sv)
    | _ => (dataReply "discordAccounts" .null, sv)
  else (.json (JSON.ofFields [("data", .null)]), sv)

/-- The client of the model server. -/
def modelClient : apiClient ModelServer :=
  ⟨fun sv req => sv.handle req, "https://grackdb.fogo.sh/query"⟩

/-! ## Sample clients and resource data -/

/-- A client whose every POST fails before a response arrives. -/
def offlineClient : apiClient Unit :=
  ⟨fun s _ => (.postErr "dial tcp: connection refused", s), "https://grackdb.fogo.sh/query"⟩

/-- A client whose response body cannot be read to its end. -/
def brokenBodyClient : apiClient Unit :=
  ⟨fun s _ => (.readErr "unexpected EOF", s), "https://grackdb.fogo.sh/query"⟩

/-- A client whose response body is not JSON. -/
def invalidBodyClient : apiClient Unit :=
  ⟨fun s _ => (.invalid "invalid character < looking for beginning of value", s),
    "https://grackdb.fogo.sh/query"⟩

/-- A client answering every request with the document `j`. -/
def fixedClient (j : JSON) : apiClient Unit :=
  ⟨fun s _ => (.json j, s), "https://grackdb.fogo.sh/query"⟩

/-- Resource data with the identity `id`, the listed attribute values, the
listed attributes reported as changed, and no failing assignment. -/
def ResourceData.ofList (id : String) (attrs : List (String × String))
    (changed : List String) : ResourceData :=
  ⟨id, fun k => attrs.lookup k, fun k => changed.contains k, fun _ => none⟩

/-- A user whose avatar was removed from the configuration. -/
def userAvatarCleared : ResourceData :=
  ResourceData.ofList "7" [("id", "7"), ("username", "alice")] ["avatar_url"]

/-- A user whose avatar was replaced in the configuration. -/
def userAvatarReplaced : ResourceData :=
  ResourceData.ofList "7"
    [("id", "7"), ("username", "alice"), ("avatar_url", "https://img.example/a.png")]
    ["avatar_url"]

/-- A user without any change. -/
def userUnchanged : ResourceData :=
  ResourceData.ofList "7" [("id", "7"), ("username", "alice")] []

/-- The response to a successful `deleteUser` mutation. -/
def deleteUserOk : JSON :=
  JSON.ofFields [("data", JSON.ofFields [("deleteUser",
    JSON.ofFields [("id", .str "7"), ("username", .str "alice"), ("avatarUrl", .null)])])]

/-- The response to a successful `deleteDiscordAccount` mutation. -/
def deleteDiscordAccountOk : JSON :=
  JSON.ofFields [("data", JSON.ofFields [("deleteDiscordAccount",
    JSON.ofFields [("id", .str "7"), ("discordId", .str "1234"), ("username", .str "alice"),
      ("discriminator", .str "0001"), ("owner", .null), ("bot", .null)])])]

/-- A response whose `data` holds a number where a record is expected. -/
def wrongKindBody : JSON :=
  JSON.ofFields [("data", .num 5)]

/-- A declared user with an avatar, not yet created. -/
def userDeclared : ResourceData :=
  ResourceData.ofList "" [("username", "alice"), ("avatar_url", "https://img.example/a.png")] []

/-- A declared Discord account without an owner, not yet created. -/
def accountDeclared : ResourceData :=
  ResourceData.ofList ""
    [("discord_id", "1234"), ("username", "alice"), ("discriminator", "0001")] []

/-- Resource data of a data source before its first read. -/
def dataSourceFresh : ResourceData := ResourceData.ofList "" [] []

/-- A Discord account known locally with an owner and a bot. -/
def accountOwned : ResourceData :=
  ResourceData.ofList "3"
    [("id", "3"), ("discord_id", "1234"), ("username", "bob"), ("discriminator", "0001"),
      ("owner", "u1"), ("bot", "b1")] []

/-- The response to a `users` query that matches nothing. -/
def usersEmpty : JSON :=
  JSON.ofFields [("data", JSON.ofFields [("users", JSON.ofFields [("edges", JSON.ofList [])])])]

/-- The response to a `discordAccounts` query that matches nothing. -/
def discordAccountsEmpty : JSON :=
  JSON.ofFields [("data", JSON.ofFields [("discordAccounts",
    JSON.ofFields [("edges", JSON.ofList [])])])]

/-- The response to a `discordAccounts` query: one account, whose owner and
bot are both null. -/
def discordAccountsUnowned : JSON :=
  JSON.ofFields [("data", JSON.ofFields [("discordAccounts", JSON.ofFields [("edges",
    JSON.ofList [JSON.ofFields [("node", JSON.ofFields
      [("id", .str "3"), ("discordId", .str "1234"), ("username", .str "bob"),
        ("discriminator", .str "0001"), ("owner", .null), ("bot", .null)])]])])])]

/-- The response to a `currentUser` query without a valid token. -/
def currentUserNull : JSON :=
  JSON.ofFields [("data", JSON.ofFields [("currentUser", .null)])]

/-- The response to a `currentUser` query with a valid token. -/
def currentUserAlice : JSON :=
  JSON.ofFields [("data", JSON.ofFields [("currentUser",
    JSON.ofFields [("id", .str "7"), ("username", .str "alice"), ("avatarUrl", .null)])])]

/-- A declared Discord account with an owner, not yet created. -/
def accountDeclaredOwned : ResourceData :=
  ResourceData.ofList ""
    [("discord_id", "1234"), ("username", "alice"), ("discriminator", "0001"),
      ("owner", "user-0")] []

/-- A response whose `data` has no member at all. -/
def dataEmpty : JSON :=
  JSON.ofFields [("data", JSON.ofFields [])]

/-- The response to a `deleteDiscordAccount` mutation that returns null. -/
def deleteDiscordAccountNull : JSON :=
  JSON.ofFields [("data", JSON.ofFields [("deleteDiscordAccount", .null)])]

/-- The response to a `users` query that finds the user `alice`; it has no
`updateUser` and no `createUser`. -/
def usersAlice : JSON :=
  JSON.ofFields [("data", JSON.ofFields [("users", JSON.ofFields [("edges",
    JSON.ofList [JSON.ofFields [("node",
      JSON.ofFields [("id", .str "7"), ("username", .str "alice")])]])])])]

/-- A provider configuration with the token `alpha`. -/
def configAlpha : ResourceData :=
  ResourceData.ofList "" [("api_url", "https://grackdb.fogo.sh/query"), ("token", "alpha")] []

/-- A provider configuration with the token `beta`. -/
def configBeta : ResourceData :=
  ResourceData.ofList "" [("api_url", "https://grackdb.fogo.sh/query"), ("token", "beta")] []

/-- A provider configuration without a token. -/
def configNoToken : ResourceData :=
  ResourceData.ofList "" [("api_url", "https://grackdb.fogo.sh/query")] []

/-- The process after `configure` has run for the configuration `d` in the
process `p`. -/
def processAfter (UserAgent : String → String → String) (version : String)
    (d : ResourceData) (p : Process) : Process :=
  (configure UserAgent headerLog version d p).2.2

/-- The headers arriving at `http.DefaultTransport` when `configure` runs
for the configuration `d` in the process `p` and the current-user data
source is then read through the client it returned. -/
def headersOfRead (UserAgent : String → String → String) (version : String)
    (d : ResourceData) (p : Process) : List Header :=
  (dataSourceCurrentUserRead (configure UserAgent headerLog version d p).1
    ((configure UserAgent headerLog version d p).2.2, []) dataSourceFresh).2.2.2

/-- The response to a `currentUser` query that returns the user with the
given id, username and avatar (null when there is none). -/
def currentUserResponse (id username : String) (avatarUrl : Option String) : JSON :=
  JSON.ofFields [("data", JSON.ofFields [("currentUser",
    JSON.ofFields [("id", .str id), ("username", .str username),
      ("avatarUrl", JSON.ofOption avatarUrl)])])]

/-- A response whose `data` is null. -/
def dataNull : JSON :=
  JSON.ofFields [("data", .null)]

/-- A response that is an object without members. -/
def bodyEmptyObject : JSON :=
  JSON.ofFields []

/-- A response that is the bare literal `null`. -/
def bodyNull : JSON := .null

/-! ## Lemmas on the requests sent -/

theorem resourceUserRead_log {σ : Type} (client : apiClient σ)
    (st : σ × List Request) (d : ResourceData) :
    (resourceUserRead client.recording st d).2.2.2 =
      st.2 ++ [⟨client.apiUrl, "application/json", resourceUserReadRequest d⟩] := by
  simp only [resourceUserRead, apiClient.Post, apiClient.recording]
  repeat' split
  all_goals rfl

theorem resourceDiscordAccountRead_log {σ : Type} (client : apiClient σ)
    (st : σ × List Request) (d : ResourceData) :
    (resourceDiscordAccountRead client.recording st d).2.2.2 =
      st.2 ++ [⟨client.apiUrl, "application/json", resourceDiscordAccountReadRequest d⟩] := by
  simp only [resourceDiscordAccountRead, apiClient.Post, apiClient.recording]
  repeat' split
  all_goals rfl

theorem resourceUserUpdate_first {σ : Type} (client : apiClient σ) (s : σ)
    (d : ResourceData) :
    (requestsSent resourceUserUpdate client s d).head? =
      some ⟨client.apiUrl, "application/json", resourceUserUpdateRequest d⟩ := by
  simp only [requestsSent, resourceUserUpdate]
  split
  · rfl
  · rw [resourceUserRead_log]
    rfl

theorem resourceDiscordAccountUpdate_first {σ : Type} (client : apiClient σ) (s : σ)
    (d : ResourceData) :
    (requestsSent resourceDiscordAccountUpdate client s d).head? =
      some ⟨client.apiUrl, "application/json", resourceDiscordAccountUpdateRequest d⟩ := by
  simp only [requestsSent, resourceDiscordAccountUpdate]
  split
  · rfl
  · rw [resourceDiscordAccountRead_log]
    rfl

theorem resourceUserCreate_first {σ : Type} (client : apiClient σ) (s : σ)
    (d : ResourceData) :
    (requestsSent resourceUserCreate client s d).head? =
      some ⟨client.apiUrl, "application/json", resourceUserCreateRequest d⟩ := by
  simp only [requestsSent, resourceUserCreate]
  split
  · rfl
  · rfl
  · rw [resourceUserRead_log]
    rfl

theorem resourceDiscordAccountCreate_first {σ : Type} (client : apiClient σ) (s : σ)
    (d : ResourceData) :
    (requestsSent resourceDiscordAccountCreate client s d).head? =
      some ⟨client.apiUrl, "application/json", resourceDiscordAccountCreateRequest d⟩ := by
  simp only [requestsSent, resourceDiscordAccountCreate]
  split
  · rfl
  · rfl
  · rw [resourceDiscordAccountRead_log]
    rfl

theorem resourceUserDelete_sent {σ : Type} (client : apiClient σ) (s : σ)
    (d : ResourceData) :
    requestsSent resourceUserDelete client s d =
      [⟨client.apiUrl, "application/json", resourceUserDeleteRequest d⟩] := by
  simp only [requestsSent, resourceUserDelete]
  split <;> rfl

theorem resourceDiscordAccountDelete_sent {σ : Type} (client : apiClient σ) (s : σ)
    (d : ResourceData) :
    requestsSent resourceDiscordAccountDelete client s d =
      [⟨client.apiUrl, "application/json", resourceDiscordAccountDeleteRequest d⟩] := by
  simp only [requestsSent, resourceDiscordAccountDelete]
  split <;> rfl

/-! ## The payload of Update -/

/-- C1. Every User Update and every DiscordAccount Update first sends its
mutation, and the keys of the `input` object in that request's variables are
exactly the mutable fields the host reports as changed (`username` and
`avatarUrl` for a user; `username`, `discriminator` and `owner` for a
Discord account). The object is empty when nothing changed, and neither
`discordId` nor `discord_id` is ever a key of a DiscordAccount Update,
whatever the host reports for `discord_id`. -/
theorem update_input_keys_are_changed_fields {σ : Type} (client : apiClient σ) (s : σ)
    (d : ResourceData) :
    (∃ req m, (requestsSent resourceUserUpdate client s d).head? = some req ∧
      req.body.query = updateUserQuery ∧
      req.body.variablesMap "input" = some (.input m) ∧
      (∀ k, m.has k = true ↔
        (k = "username" ∧ d.HasChange "username" = true) ∨
        (k = "avatarUrl" ∧ d.HasChange "avatar_url" = true)) ∧
      (d.HasChange "username" = false → d.HasChange "avatar_url" = false →
        m = GoMap.empty)) ∧
    (∃ req m, (requestsSent resourceDiscordAccountUpdate client s d).head? = some req ∧
      req.body.query = updateDiscordAccountQuery ∧
      req.body.variablesMap "input" = some (.input m) ∧
      (∀ k, m.has k = true ↔
        (k = "username" ∧ d.HasChange "username" = true) ∨
        (k = "discriminator" ∧ d.HasChange "discriminator" = true) ∨
        (k = "owner" ∧ d.HasChange "owner" = true)) ∧
      (d.HasChange "username" = false → d.HasChange "discriminator" = false →
        d.HasChange "owner" = false → m = GoMap.empty) ∧
      m.has "discordId" = false ∧ m.has "discord_id" = false) := by
  refine ⟨⟨_, resourceUserUpdateInput d, resourceUserUpdate_first client s d, rfl, ?_, ?_, ?_⟩,
    ⟨_, resourceDiscordAccountUpdateInput d, resourceDiscordAccountUpdate_first client s d,
      rfl, ?_, ?_, ?_, ?_, ?_⟩⟩
  · simp [resourceUserUpdateRequest, GoMap.set]
  · intro k
    by_cases h1 : d.HasChange "username" = true <;>
      by_cases h2 : d.HasChange "avatar_url" = true <;>
      by_cases k1 : k = "username" <;> by_cases k2 : k = "avatarUrl" <;>
      simp_all [resourceUserUpdateInput, GoMap.set, GoMap.has, GoMap.empty]
  · intro h1 h2
    simp [resourceUserUpdateInput, h1, h2]
  · simp [resourceDiscordAccountUpdateRequest, GoMap.set]
  · intro k
    by_cases h1 : d.HasChange "username" = true <;>
      by_cases h2 : d.HasChange "discriminator" = true <;>
      by_cases h3 : d.HasChange "owner" = true <;>
      by_cases k1 : k = "username" <;> by_cases k2 : k = "discriminator" <;>
      by_cases k3 : k = "owner" <;>
      simp_all [resourceDiscordAccountUpdateInput, GoMap.set, GoMap.has, GoMap.empty]
  · intro h1 h2 h3
    simp [resourceDiscordAccountUpdateInput, h1, h2, h3]
  · by_cases h1 : d.HasChange "username" = true <;>
      by_cases h2 : d.HasChange "discriminator" = true <;>
      by_cases h3 : d.HasChange "owner" = true <;>
      simp [resourceDiscordAccountUpdateInput, GoMap.set, GoMap.has, GoMap.empty, h1, h2, h3]
  · by_cases h1 : d.HasChange "username" = true <;>
      by_cases h2 : d.HasChange "discriminator" = true <;>
      by_cases h3 : d.HasChange "owner" = true <;>
      simp [resourceDiscordAccountUpdateInput, GoMap.set, GoMap.has, GoMap.empty, h1, h2, h3]

/-- Witness for C1: a user without changes is updated with an empty `input`
object. -/
theorem update_input_keys_are_changed_fields_witness :
    ∃ req m, (requestsSent resourceUserUpdate offlineClient () userUnchanged).head? = some req ∧
      req.body.variablesMap "input" = some (.input m) ∧ m = GoMap.empty :=
  match (update_input_keys_are_changed_fields offlineClient () userUnchanged).1 with
  | ⟨req, m, h1, _, h3, _, h5⟩ => ⟨req, m, h1, h3, h5 rfl rfl⟩

/-- C2. In every User Update with `avatar_url` reported as changed, the
`input` object of the mutation has the key `avatarUrl`: its value is JSON
`null` when the declared `avatar_url` is the empty string, and the declared
string otherwise. -/
theorem update_avatar_url_null_or_value {σ : Type} (client : apiClient σ) (s : σ)
    (d : ResourceData) (h : d.HasChange "avatar_url" = true) :
    ∃ req m, (requestsSent resourceUserUpdate client s d).head? = some req ∧
      req.body.query = updateUserQuery ∧
      req.body.variablesMap "input" = some (.input m) ∧
      m.has "avatarUrl" = true ∧
      (d.Get "avatar_url" = "" → m "avatarUrl" = some none) ∧
      (d.Get "avatar_url" ≠ "" → m "avatarUrl" = some (some (d.Get "avatar_url"))) := by
  refine ⟨_, resourceUserUpdateInput d, resourceUserUpdate_first client s d, rfl, ?_, ?_, ?_, ?_⟩
  · simp [resourceUserUpdateRequest, GoMap.set]
  · simp [resourceUserUpdateInput, GoMap.set, GoMap.has, h]
  · intro h0
    simp [resourceUserUpdateInput, GoMap.set, h, h0]
  · intro h0
    simp [resourceUserUpdateInput, GoMap.set, h, h0]

/-- Witness for C2: clearing the avatar sends `null`, replacing it sends the
new value. -/
theorem update_avatar_url_null_or_value_witness :
    (userAvatarCleared.HasChange "avatar_url" = true ∧
      ∃ req m, (requestsSent resourceUserUpdate offlineClient () userAvatarCleared).head? =
          some req ∧
        req.body.variablesMap "input" = some (.input m) ∧ m "avatarUrl" = some none) ∧
    (userAvatarReplaced.HasChange "avatar_url" = true ∧
      ∃ req m, (requestsSent resourceUserUpdate offlineClient () userAvatarReplaced).head? =
          some req ∧
        req.body.variablesMap "input" = some (.input m) ∧
        m "avatarUrl" = some (some "https://img.example/a.png")) :=
  ⟨⟨by decide,
    match update_avatar_url_null_or_value offlineClient () userAvatarCleared (by decide) with
    | ⟨req, m, h1, _, h3, _, h5, _⟩ => ⟨req, m, h1, h3, h5 (by decide)⟩⟩,
   ⟨by decide,
    match update_avatar_url_null_or_value offlineClient () userAvatarReplaced (by decide) with
    | ⟨req, m, h1, _, h3, _, _, h6⟩ => ⟨req, m, h1, h3, h6 (by decide)⟩⟩⟩

/-! ## The payload of Create -/

/-- C6. Every Create first sends its mutation, and the `input` object of
that request holds each required field with its declared value, each
optional field exactly when its declared value is not empty, and no other
key: `username`, and `avatarUrl` iff `avatar_url` is not empty, for a user;
`discordId`, `username`, `discriminator`, and `owner` iff `owner` is not
empty, for a Discord account. Neither `id` nor `bot` is ever a key. -/
theorem create_input_fields {σ : Type} (client : apiClient σ) (s : σ) (d : ResourceData) :
    (∃ req m, (requestsSent resourceUserCreate client s d).head? = some req ∧
      req.body.query = createUserQuery ∧
      req.body.variablesMap "input" = some (.input m) ∧
      m "username" = some (some (d.Get "username")) ∧
      (m.has "avatarUrl" = true ↔ d.Get "avatar_url" ≠ "") ∧
      (d.Get "avatar_url" ≠ "" → m "avatarUrl" = some (some (d.Get "avatar_url"))) ∧
      (∀ k, k ≠ "username" → k ≠ "avatarUrl" → m k = none) ∧
      m.has "id" = false ∧ m.has "bot" = false) ∧
    (∃ req m, (requestsSent resourceDiscordAccountCreate client s d).head? = some req ∧
      req.body.query = createDiscordAccountQuery ∧
      req.body.variablesMap "input" = some (.input m) ∧
      m "discordId" = some (some (d.Get "discord_id")) ∧
      m "username" = some (some (d.Get "username")) ∧
      m "discriminator" = some (some (d.Get "discriminator")) ∧
      (m.has "owner" = true ↔ d.Get "owner" ≠ "") ∧
      (d.Get "owner" ≠ "" → m "owner" = some (some (d.Get "owner"))) ∧
      (∀ k, k ≠ "discordId" → k ≠ "username" → k ≠ "discriminator" → k ≠ "owner" →
        m k = none) ∧
      m.has "id" = false ∧ m.has "bot" = false) := by
  refine ⟨⟨_, resourceUserCreateInput d, resourceUserCreate_first client s d, rfl,
      ?_, ?_, ?_, ?_, ?_, ?_, ?_⟩,
    ⟨_, resourceDiscordAccountCreateInput d, resourceDiscordAccountCreate_first client s d,
      rfl, ?_, ?_, ?_, ?_, ?_, ?_, ?_, ?_, ?_⟩⟩
  · simp [resourceUserCreateRequest, GoMap.set]
  · by_cases h : d.Get "avatar_url" = "" <;>
      simp [resourceUserCreateInput, GoMap.set, h]
  · by_cases h : d.Get "avatar_url" = "" <;>
      simp [resourceUserCreateInput, GoMap.set, GoMap.has, GoMap.empty, h]
  · intro h
    simp [resourceUserCreateInput, GoMap.set, h]
  · intro k k1 k2
    by_cases h : d.Get "avatar_url" = "" <;>
      simp [resourceUserCreateInput, GoMap.set, GoMap.empty, h, k1, k2]
  · by_cases h : d.Get "avatar_url" = "" <;>
      simp [resourceUserCreateInput, GoMap.set, GoMap.has, GoMap.empty, h]
  · by_cases h : d.Get "avatar_url" = "" <;>
      simp [resourceUserCreateInput, GoMap.set, GoMap.has, GoMap.empty, h]
  · simp [resourceDiscordAccountCreateRequest, GoMap.set]
  · by_cases h : d.Get "owner" = "" <;>
      simp [resourceDiscordAccountCreateInput, GoMap.set, h]
  · by_cases h : d.Get "owner" = "" <;>
      simp [resourceDiscordAccountCreateInput, GoMap.set, h]
  · by_cases h : d.Get "owner" = "" <;>
      simp [resourceDiscordAccountCreateInput, GoMap.set, h]
  · by_cases h : d.Get "owner" = "" <;>
      simp [resourceDiscordAccountCreateInput, GoMap.set, GoMap.has, GoMap.empty, h]
  · intro h
    simp [resourceDiscordAccountCreateInput, GoMap.set, h]
  · intro k k1 k2 k3 k4
    by_cases h : d.Get "owner" = "" <;>
      simp [resourceDiscordAccountCreateInput, GoMap.set, GoMap.empty, h, k1, k2, k3, k4]
  · by_cases h : d.Get "owner" = "" <;>
      simp [resourceDiscordAccountCreateInput, GoMap.set, GoMap.has, GoMap.empty, h]
  · by_cases h : d.Get "owner" = "" <;>
      simp [resourceDiscordAccountCreateInput, GoMap.set, GoMap.has, GoMap.empty, h]

/-- Witness for C6: a declared user with an avatar sends both fields, a
declared Discord account without an owner sends no `owner`. -/
theorem create_input_fields_witness :
    (∃ req m, (requestsSent resourceUserCreate offlineClient () userDeclared).head? = some req ∧
      req.body.variablesMap "input" = some (.input m) ∧
      m "username" = some (some "alice") ∧
      m "avatarUrl" = some (some "https://img.example/a.png")) ∧
    (∃ req m, (requestsSent resourceDiscordAccountCreate offlineClient () accountDeclared).head? =
        some req ∧
      req.body.variablesMap "input" = some (.input m) ∧
      m "discordId" = some (some "1234") ∧ m.has "owner" = false) :=
  ⟨match (create_input_fields offlineClient () userDeclared).1 with
    | ⟨req, m, h1, _, h3, h4, _, h6, _⟩ => ⟨req, m, h1, h3, h4, h6 (by decide)⟩,
   match (create_input_fields offlineClient () accountDeclared).2 with
    | ⟨req, m, h1, _, h3, h4, _, _, h7, _⟩ =>
      ⟨req, m, h1, h3, h4, by
        cases hm : m.has "owner"
        · rfl
        · exact absurd (h7.mp hm) (by decide)⟩⟩

/-! ## Delete -/

/-- C7. Every User Delete and DiscordAccount Delete sends one request, whose
variables hold the stored id under a single key. When the POST, the reading
of the body and the JSON decoding all succeed, the call returns no
diagnostics and the local id is the empty string afterwards. When the POST
fails, the body cannot be read, or the body does not decode, the call
returns the error as a diagnostic of severity error and leaves the resource
data (the id and every field) as it was. -/
theorem delete_contract {σ : Type} (client : apiClient σ) (s : σ) (d : ResourceData) :
    ((∃ req, requestsSent resourceUserDelete client s d = [req] ∧
        req.body.query = deleteUserQuery ∧
        ∀ k, req.body.variablesMap k = if k = "userId" then some (.str d.Id) else none) ∧
      (∀ j r, (client.Post s (resourceUserDeleteRequest d)).1 = .json j →
        unmarshalDeleteUserResp j = .ok r →
        (resourceUserDelete client s d).1 = .returned [] ∧
        (resourceUserDelete client s d).2.1.Id = "") ∧
      (∀ err, ((client.Post s (resourceUserDeleteRequest d)).1 = .postErr err ∨
          (client.Post s (resourceUserDeleteRequest d)).1 = .readErr err ∨
          (client.Post s (resourceUserDeleteRequest d)).1 = .invalid err ∨
          ∃ j, (client.Post s (resourceUserDeleteRequest d)).1 = .json j ∧
            unmarshalDeleteUserResp j = .error err) →
        (resourceUserDelete client s d).1 = .returned [⟨.Error, err, ""⟩] ∧
        (resourceUserDelete client s d).2.1 = d)) ∧
    ((∃ req, requestsSent resourceDiscordAccountDelete client s d = [req] ∧
        req.body.query = deleteDiscordAccountQuery ∧
        ∀ k, req.body.variablesMap k = if k = "accountId" then some (.str d.Id) else none) ∧
      (∀ j r, (client.Post s (resourceDiscordAccountDeleteRequest d)).1 = .json j →
        unmarshalDeleteDiscordAccountResp j = .ok r →
        (resourceDiscordAccountDelete client s d).1 = .returned [] ∧
        (resourceDiscordAccountDelete client s d).2.1.Id = "") ∧
      (∀ err, ((client.Post s (resourceDiscordAccountDeleteRequest d)).1 = .postErr err ∨
          (client.Post s (resourceDiscordAccountDeleteRequest d)).1 = .readErr err ∨
          (client.Post s (resourceDiscordAccountDeleteRequest d)).1 = .invalid err ∨
          ∃ j, (client.Post s (resourceDiscordAccountDeleteRequest d)).1 = .json j ∧
            unmarshalDeleteDiscordAccountResp j = .error err) →
        (resourceDiscordAccountDelete client s d).1 = .returned [⟨.Error, err, ""⟩] ∧
        (resourceDiscordAccountDelete client s d).2.1 = d)) := by
  refine ⟨⟨⟨_, resourceUserDelete_sent client s d, rfl, ?_⟩, ?_, ?_⟩,
    ⟨⟨_, resourceDiscordAccountDelete_sent client s d, rfl, ?_⟩, ?_, ?_⟩⟩
  · intro k
    simp [resourceUserDeleteRequest, GoMap.set, GoMap.empty]
  · intro j r hj hr
    simp [resourceUserDelete, hj, Reply.decode, hr, ResourceData.SetId, ResourceData.Id]
  · intro err h
    rcases h with h | h | h | ⟨j, h, hj⟩
    · simp [resourceUserDelete, h, Reply.decode, diag.FromErr]
    · simp [resourceUserDelete, h, Reply.decode, diag.FromErr]
    · simp [resourceUserDelete, h, Reply.decode, diag.FromErr]
    · simp [resourceUserDelete, h, Reply.decode, diag.FromErr, hj]
  · intro k
    simp [resourceDiscordAccountDeleteRequest, GoMap.set, GoMap.empty]
  · intro j r hj hr
    simp [resourceDiscordAccountDelete, hj, Reply.decode, hr, ResourceData.SetId,
      ResourceData.Id]
  · intro err h
    rcases h with h | h | h | ⟨j, h, hj⟩
    · simp [resourceDiscordAccountDelete, h, Reply.decode, diag.FromErr]
    · simp [resourceDiscordAccountDelete, h, Reply.decode, diag.FromErr]
    · simp [resourceDiscordAccountDelete, h, Reply.decode, diag.FromErr]
    · simp [resourceDiscordAccountDelete, h, Reply.decode, diag.FromErr, hj]

/-- Witness for C7: a decoded response clears the id; a failed POST, an
unreadable body, a body that is not JSON and a body of the wrong shape each
return the error and leave the resource data alone. -/
theorem delete_contract_witness :
    ((resourceUserDelete (fixedClient deleteUserOk) () userUnchanged).1 = .returned [] ∧
      (resourceUserDelete (fixedClient deleteUserOk) () userUnchanged).2.1.Id = "") ∧
    ((resourceUserDelete offlineClient () userUnchanged).1 =
        .returned [⟨.Error, "dial tcp: connection refused", ""⟩] ∧
      (resourceUserDelete offlineClient () userUnchanged).2.1 = userUnchanged) ∧
    ((resourceUserDelete brokenBodyClient () userUnchanged).1 =
        .returned [⟨.Error, "unexpected EOF", ""⟩] ∧
      (resourceUserDelete brokenBodyClient () userUnchanged).2.1 = userUnchanged) ∧
    ((resourceUserDelete (fixedClient wrongKindBody) () userUnchanged).1 =
        .returned [⟨.Error, unmarshalTypeError, ""⟩] ∧
      (resourceUserDelete (fixedClient wrongKindBody) () userUnchanged).2.1 = userUnchanged) ∧
    ((resourceDiscordAccountDelete (fixedClient deleteDiscordAccountOk) () accountOwned).1 =
        .returned [] ∧
      (resourceDiscordAccountDelete (fixedClient deleteDiscordAccountOk) () accountOwned).2.1.Id
        = "") ∧
    ((resourceDiscordAccountDelete invalidBodyClient () accountOwned).1 =
        .returned [⟨.Error, "invalid character < looking for beginning of value", ""⟩] ∧
      (resourceDiscordAccountDelete invalidBodyClient () accountOwned).2.1 = accountOwned) :=
  ⟨(delete_contract (fixedClient deleteUserOk) () userUnchanged).1.2.1 deleteUserOk
      (some ⟨"7", "alice", none⟩) rfl rfl,
    (delete_contract offlineClient () userUnchanged).1.2.2 _ (Or.inl rfl),
    (delete_contract brokenBodyClient () userUnchanged).1.2.2 _ (Or.inr (Or.inl rfl)),
    (delete_contract (fixedClient wrongKindBody) () userUnchanged).1.2.2 _
      (Or.inr (Or.inr (Or.inr ⟨wrongKindBody, rfl, rfl⟩))),
    (delete_contract (fixedClient deleteDiscordAccountOk) () accountOwned).2.2.1
      deleteDiscordAccountOk (some (.mk "7" "1234" "alice" "0001" none none)) rfl rfl,
    (delete_contract invalidBodyClient () accountOwned).2.2.2 _
      (Or.inr (Or.inr (Or.inl rfl)))⟩

/-! ## Read -/

/-- C4. A User Read or DiscordAccount Read whose response decodes to a
record without edges returns exactly one diagnostic, the not-found one, and
leaves the resource data (the stored id and every field) as it was. -/
theorem read_not_found_keeps_state {σ : Type} (client : apiClient σ) (s : σ)
    (d : ResourceData) :
    (∀ j, (client.Post s (resourceUserReadRequest d)).1 = .json j →
      unmarshalReadUserResp j = .ok (some []) →
      (resourceUserRead client s d).1 = .returned [userNotFound] ∧
      (resourceUserRead client s d).2.1 = d) ∧
    (∀ j, (client.Post s (resourceDiscordAccountReadRequest d)).1 = .json j →
      unmarshalReadDiscordAccountResp j = .ok (some []) →
      (resourceDiscordAccountRead client s d).1 = .returned [discordAccountNotFound] ∧
      (resourceDiscordAccountRead client s d).2.1 = d) := by
  constructor
  · intro j hj hr
    simp [resourceUserRead, hj, Reply.decode, hr]
  · intro j hj hr
    simp [resourceDiscordAccountRead, hj, Reply.decode, hr]

/-- Witness for C4: reads of a user and of a Discord account that the server
does not have. -/
theorem read_not_found_keeps_state_witness :
    ((resourceUserRead (fixedClient usersEmpty) () userAvatarReplaced).1 =
        .returned [userNotFound] ∧
      (resourceUserRead (fixedClient usersEmpty) () userAvatarReplaced).2.1 =
        userAvatarReplaced) ∧
    ((resourceDiscordAccountRead (fixedClient discordAccountsEmpty) () accountOwned).1 =
        .returned [discordAccountNotFound] ∧
      (resourceDiscordAccountRead (fixedClient discordAccountsEmpty) () accountOwned).2.1 =
        accountOwned) :=
  ⟨(read_not_found_keeps_state (fixedClient usersEmpty) () userAvatarReplaced).1
      usersEmpty rfl rfl,
    (read_not_found_keeps_state (fixedClient discordAccountsEmpty) () accountOwned).2
      discordAccountsEmpty rfl rfl⟩

/-- The part of the Read contract that holds for both resources: when the
decoded response has an edge and no assignment fails, Read returns no
diagnostics and the fields hold the values of the first node; `owner` and
`bot` of a Discord account are written only when the node has them, and
keep their local value otherwise. -/
theorem read_writes_first_node {σ : Type} (client : apiClient σ) (s : σ)
    (d : ResourceData) (hset : ∀ k, d.setErr k = none) :
    (∀ j user rest, (client.Post s (resourceUserReadRequest d)).1 = .json j →
      unmarshalReadUserResp j = .ok (some (user :: rest)) →
      (resourceUserRead client s d).1 = .returned [] ∧
      (resourceUserRead client s d).2.1.attrs "id" = some user.ID ∧
      (resourceUserRead client s d).2.1.attrs "username" = some user.Username ∧
      (resourceUserRead client s d).2.1.attrs "avatar_url" = user.AvatarURL) ∧
    (∀ j account rest, (client.Post s (resourceDiscordAccountReadRequest d)).1 = .json j →
      unmarshalReadDiscordAccountResp j = .ok (some (account :: rest)) →
      (resourceDiscordAccountRead client s d).1 = .returned [] ∧
      (resourceDiscordAccountRead client s d).2.1.attrs "id" = some account.ID ∧
      (resourceDiscordAccountRead client s d).2.1.attrs "discord_id" =
        some account.DiscordID ∧
      (resourceDiscordAccountRead client s d).2.1.attrs "username" = some account.Username ∧
      (resourceDiscordAccountRead client s d).2.1.attrs "discriminator" =
        some account.Discriminator ∧
      (resourceDiscordAccountRead client s d).2.1.attrs "owner" =
        (match account.Owner with
          | some owner => some owner.ID
          | none => d.attrs "owner") ∧
      (resourceDiscordAccountRead client s d).2.1.attrs "bot" =
        (match account.Bot with
          | some bot => some bot.ID
          | none => d.attrs "bot")) := by
  constructor
  · intro j user rest hj hr
    simp [resourceUserRead, hj, Reply.decode, hr, ResourceData.Set, hset]
  · intro j account rest hj hr
    obtain ⟨id, did, un, disc, own, bot⟩ := account
    cases own <;> cases bot <;>
      simp [resourceDiscordAccountRead, hj, Reply.decode, hr, ResourceData.Set, hset,
        setDiscordAccountOwner, setDiscordAccountBot, DiscordAccount.Owner,
        DiscordAccount.Bot, DiscordAccount.ID, DiscordAccount.DiscordID,
        DiscordAccount.Username, DiscordAccount.Discriminator]

/-- C3, at the input where it fails. A Discord account is known locally with
owner `u1` and bot `b1`; the server answers the Read with that account, its
owner and its bot both null. The Read returns no diagnostics, and `owner`
and `bot` still hold `u1` and `b1` instead of being empty. -/
theorem discordAccountRead_null_owner_keeps_local :
    unmarshalReadDiscordAccountResp discordAccountsUnowned =
      .ok (some [.mk "3" "1234" "bob" "0001" none none]) ∧
    (resourceDiscordAccountRead (fixedClient discordAccountsUnowned) () accountOwned).1 =
      .returned [] ∧
    (resourceDiscordAccountRead (fixedClient discordAccountsUnowned) () accountOwned).2.1.Get
      "owner" = "u1" ∧
    (resourceDiscordAccountRead (fixedClient discordAccountsUnowned) () accountOwned).2.1.Get
      "bot" = "b1" := by
  refine ⟨rfl, ?_, ?_, ?_⟩ <;> decide

/-! ## The current-user data source -/

theorem unmarshalCurrentUserResp_response (id username : String)
    (avatarUrl : Option String) :
    unmarshalCurrentUserResp (currentUserResponse id username avatarUrl) =
      .ok (some (some ⟨id, username, avatarUrl⟩)) := by
  cases avatarUrl <;> rfl

/-- The part of the data-source contract that holds. For a response decoded
into a record: when `CurrentUser` is nil, the call returns exactly one
diagnostic (the descriptive one) and the resource data, its id included, is
left as it was; otherwise, when no assignment fails, the call returns no
diagnostics, the resource id is the returned user's id, and `id`,
`username` and `avatar_url` hold the decoded values. For the response body
that returns a user with any id, username and avatar (a string or null),
the id and the three fields end up holding exactly the values in that
body. -/
theorem currentUser_read_contract {σ : Type} (client : apiClient σ) (s : σ)
    (d : ResourceData) :
    (∀ j, (client.Post s dataSourceCurrentUserReadRequest).1 = .json j →
      unmarshalCurrentUserResp j = .ok (some none) →
      (dataSourceCurrentUserRead client s d).1 = .returned [currentUserNotFound] ∧
      (dataSourceCurrentUserRead client s d).2.1 = d) ∧
    (∀ j user, (client.Post s dataSourceCurrentUserReadRequest).1 = .json j →
      unmarshalCurrentUserResp j = .ok (some (some user)) →
      d.setErr "id" = none → d.setErr "username" = none → d.setErr "avatar_url" = none →
      (dataSourceCurrentUserRead client s d).1 = .returned [] ∧
      (dataSourceCurrentUserRead client s d).2.1.Id = user.ID ∧
      (dataSourceCurrentUserRead client s d).2.1.attrs "id" = some user.ID ∧
      (dataSourceCurrentUserRead client s d).2.1.attrs "username" = some user.Username ∧
      (dataSourceCurrentUserRead client s d).2.1.attrs "avatar_url" = user.AvatarURL) ∧
    (∀ id username avatarUrl,
      (client.Post s dataSourceCurrentUserReadRequest).1 =
        .json (currentUserResponse id username avatarUrl) →
      d.setErr "id" = none → d.setErr "username" = none → d.setErr "avatar_url" = none →
      (dataSourceCurrentUserRead client s d).1 = .returned [] ∧
      (dataSourceCurrentUserRead client s d).2.1.Id = id ∧
      (dataSourceCurrentUserRead client s d).2.1.attrs "id" = some id ∧
      (dataSourceCurrentUserRead client s d).2.1.attrs "username" = some username ∧
      (dataSourceCurrentUserRead client s d).2.1.attrs "avatar_url" = avatarUrl ∧
      (dataSourceCurrentUserRead client s d).2.1.Get "avatar_url" = avatarUrl.getD "") := by
  refine ⟨?_, ?_, ?_⟩
  · intro j hj hr
    simp [dataSourceCurrentUserRead, hj, Reply.decode, hr]
  · intro j user hj hr h1 h2 h3
    simp [dataSourceCurrentUserRead, hj, Reply.decode, hr, ResourceData.Set,
      ResourceData.SetId, ResourceData.Id, h1, h2, h3]
  · intro id username avatarUrl hj h1 h2 h3
    simp [dataSourceCurrentUserRead, hj, Reply.decode, unmarshalCurrentUserResp_response,
      ResourceData.Set, ResourceData.SetId, ResourceData.Id, ResourceData.Get, h1, h2, h3]

/-- Samples of the data-source contract: a read without a valid token, a
read returning a user without an avatar, and a read returning a user with
one. -/
theorem currentUser_read_contract_witness :
    ((dataSourceCurrentUserRead (fixedClient currentUserNull) () dataSourceFresh).1 =
        .returned [currentUserNotFound] ∧
      (dataSourceCurrentUserRead (fixedClient currentUserNull) () dataSourceFresh).2.1 =
        dataSourceFresh) ∧
    ((dataSourceCurrentUserRead (fixedClient currentUserAlice) () dataSourceFresh).1 =
        .returned [] ∧
      (dataSourceCurrentUserRead (fixedClient currentUserAlice) () dataSourceFresh).2.1.Id =
        "7" ∧
      (dataSourceCurrentUserRead (fixedClient currentUserAlice) () dataSourceFresh).2.1.attrs
        "id" = some "7" ∧
      (dataSourceCurrentUserRead (fixedClient currentUserAlice) () dataSourceFresh).2.1.attrs
        "username" = some "alice" ∧
      (dataSourceCurrentUserRead (fixedClient currentUserAlice) () dataSourceFresh).2.1.attrs
        "avatar_url" = none) ∧
    ((dataSourceCurrentUserRead
        (fixedClient (currentUserResponse "8" "bob" (some "https://img.example/b.png"))) ()
        dataSourceFresh).1 = .returned [] ∧
      (dataSourceCurrentUserRead
        (fixedClient (currentUserResponse "8" "bob" (some "https://img.example/b.png"))) ()
        dataSourceFresh).2.1.Id = "8" ∧
      (dataSourceCurrentUserRead
        (fixedClient (currentUserResponse "8" "bob" (some "https://img.example/b.png"))) ()
        dataSourceFresh).2.1.attrs "id" = some "8" ∧
      (dataSourceCurrentUserRead
        (fixedClient (currentUserResponse "8" "bob" (some "https://img.example/b.png"))) ()
        dataSourceFresh).2.1.attrs "username" = some "bob" ∧
      (dataSourceCurrentUserRead
        (fixedClient (currentUserResponse "8" "bob" (some "https://img.example/b.png"))) ()
        dataSourceFresh).2.1.attrs "avatar_url" = some "https://img.example/b.png" ∧
      (dataSourceCurrentUserRead
        (fixedClient (currentUserResponse "8" "bob" (some "https://img.example/b.png"))) ()
        dataSourceFresh).2.1.Get "avatar_url" = "https://img.example/b.png") :=
  ⟨(currentUser_read_contract (fixedClient currentUserNull) () dataSourceFresh).1
      currentUserNull rfl rfl,
    (currentUser_read_contract (fixedClient currentUserAlice) () dataSourceFresh).2.1
      currentUserAlice ⟨"7", "alice", none⟩ rfl rfl rfl rfl rfl,
    (currentUser_read_contract
      (fixedClient (currentUserResponse "8" "bob" (some "https://img.example/b.png"))) ()
      dataSourceFresh).2.2 "8" "bob" (some "https://img.example/b.png") rfl rfl rfl rfl⟩

/-- C9, at the input where it fails. The response body is the bare literal
`null`: it decodes without error and has no `currentUser`, and it leaves the
pointer `respData` nil, so the read of `respData.Data.CurrentUser` panics
and no diagnostic is returned. Every other body without a current user (an
object without members, a null or empty `data`, a null `currentUser`)
returns the one descriptive diagnostic and leaves the resource data as it
was. -/
theorem currentUser_read_panics_on_null_body :
    (unmarshalCurrentUserResp bodyNull = .ok none ∧
      (dataSourceCurrentUserRead (fixedClient bodyNull) () dataSourceFresh).1 = .panic) ∧
    ((dataSourceCurrentUserRead (fixedClient bodyEmptyObject) () dataSourceFresh).1 =
        .returned [currentUserNotFound] ∧
      (dataSourceCurrentUserRead (fixedClient bodyEmptyObject) () dataSourceFresh).2.1 =
        dataSourceFresh) ∧
    ((dataSourceCurrentUserRead (fixedClient dataNull) () dataSourceFresh).1 =
        .returned [currentUserNotFound] ∧
      (dataSourceCurrentUserRead (fixedClient dataNull) () dataSourceFresh).2.1 =
        dataSourceFresh) ∧
    ((dataSourceCurrentUserRead (fixedClient dataEmpty) () dataSourceFresh).1 =
        .returned [currentUserNotFound] ∧
      (dataSourceCurrentUserRead (fixedClient dataEmpty) () dataSourceFresh).2.1 =
        dataSourceFresh) ∧
    ((dataSourceCurrentUserRead (fixedClient currentUserNull) () dataSourceFresh).1 =
        .returned [currentUserNotFound] ∧
      (dataSourceCurrentUserRead (fixedClient currentUserNull) () dataSourceFresh).2.1 =
        dataSourceFresh) := by
  refine ⟨⟨rfl, rfl⟩, ⟨rfl, rfl⟩, ⟨rfl, rfl⟩, ⟨rfl, rfl⟩, ⟨rfl, rfl⟩⟩

/-! ## Create followed by Read -/

/-- C5, at the input where it fails. A user declared with the username
`alice` and an avatar is created against the model server. The server
stores both fields, the call returns no diagnostics, the username reads
back as declared, and `avatar_url` reads back empty: the query of
`resourceUserRead` does not name `avatarUrl`. -/
theorem user_create_reads_back_without_avatar :
    mentions readUserQuery "avatarUrl" = false ∧
    (resourceUserCreate modelClient ModelServer.empty userDeclared).1 = .returned [] ∧
    (resourceUserCreate modelClient ModelServer.empty userDeclared).2.2.users =
      [⟨"user-0", "alice", some "https://img.example/a.png"⟩] ∧
    (resourceUserCreate modelClient ModelServer.empty userDeclared).2.1.Get "username" =
      "alice" ∧
    userDeclared.Get "avatar_url" = "https://img.example/a.png" ∧
    (resourceUserCreate modelClient ModelServer.empty userDeclared).2.1.Get "avatar_url" =
      "" := by
  refine ⟨?_, ?_, ?_, ?_, ?_, ?_⟩ <;> decide

set_option maxRecDepth 100000 in
/-- The Discord account side of the round trip, on a sample: an account
declared with an owner reads back as declared. -/
theorem discordAccount_create_reads_back_sample :
    (resourceDiscordAccountCreate modelClient ModelServer.empty accountDeclaredOwned).1 =
      .returned [] ∧
    (resourceDiscordAccountCreate modelClient ModelServer.empty accountDeclaredOwned).2.1.Get
      "discord_id" = "1234" ∧
    (resourceDiscordAccountCreate modelClient ModelServer.empty accountDeclaredOwned).2.1.Get
      "username" = "alice" ∧
    (resourceDiscordAccountCreate modelClient ModelServer.empty accountDeclaredOwned).2.1.Get
      "discriminator" = "0001" ∧
    (resourceDiscordAccountCreate modelClient ModelServer.empty accountDeclaredOwned).2.1.Get
      "owner" = "user-0" := by
  refine ⟨?_, ?_, ?_, ?_, ?_⟩ <;> decide

/-! ## Responses without the expected data -/

/-- C8, at the inputs where it fails. The body of a `deleteUser` response
whose `data` has no `deleteUser`, and the body of a `deleteDiscordAccount`
response whose `deleteDiscordAccount` is null, both decode without error;
each Delete returns an empty list of diagnostics and clears the id. An
Update whose response has no `updateUser` returns what the Read after it
returns, here no diagnostics. The Read handlers and the data source do
report one diagnostic for a body without their data. -/
theorem delete_succeeds_on_missing_data :
    (unmarshalDeleteUserResp dataEmpty = .ok (some User.zero) ∧
      (resourceUserDelete (fixedClient dataEmpty) () userUnchanged).1 = .returned [] ∧
      (resourceUserDelete (fixedClient dataEmpty) () userUnchanged).2.1.Id = "") ∧
    (unmarshalDeleteDiscordAccountResp deleteDiscordAccountNull =
        .ok (some DiscordAccount.zero) ∧
      (resourceDiscordAccountDelete (fixedClient deleteDiscordAccountNull) () accountOwned).1 =
        .returned [] ∧
      (resourceDiscordAccountDelete (fixedClient deleteDiscordAccountNull) ()
        accountOwned).2.1.Id = "") ∧
    (unmarshalUpdateUserResp usersAlice = .ok (some User.zero) ∧
      (resourceUserUpdate (fixedClient usersAlice) () userUnchanged).1 = .returned []) ∧
    (resourceUserRead (fixedClient dataEmpty) () userUnchanged).1 = .returned [userNotFound] ∧
    (resourceDiscordAccountRead (fixedClient dataEmpty) () accountOwned).1 =
      .returned [discordAccountNotFound] ∧
    (dataSourceCurrentUserRead (fixedClient dataEmpty) () dataSourceFresh).1 =
      .returned [currentUserNotFound] := by
  refine ⟨⟨rfl, ?_, ?_⟩, ⟨rfl, ?_, ?_⟩, ⟨rfl, ?_⟩, ?_, ?_, ?_⟩ <;> decide

/-! ## The provider -/

/-- C10, as the code has it. For every version, the provider built by `New`
has one data source, `grackdb_current_user`, bound to
`dataSourceCurrentUser`, and one resource, `scaffolding_resource`, bound to
the result of `resourceScaffolding`: no entry of its resource map is named
after the user or the Discord account resource. -/
theorem New_registers_scaffolding_only (resourceScaffolding : Resource) (version : String) :
    (New resourceScaffolding version).DataSourcesMap =
      [("grackdb_current_user", dataSourceCurrentUser)] ∧
    (New resourceScaffolding version).ResourcesMap =
      [("scaffolding_resource", resourceScaffolding)] ∧
    (New resourceScaffolding version).ResourcesMap.length = 1 ∧
    (∀ k r, (k, r) ∈ (New resourceScaffolding version).ResourcesMap →
      k = "scaffolding_resource") ∧
    (New resourceScaffolding version).ResourcesMap.lookup "user" = none ∧
    (New resourceScaffolding version).ResourcesMap.lookup "discord_account" = none ∧
    (New resourceScaffolding version).ResourcesMap.lookup "grackdb_user" = none ∧
    (New resourceScaffolding version).ResourcesMap.lookup "grackdb_discord_account" = none := by
  refine ⟨rfl, rfl, rfl, ?_, rfl, rfl, rfl, rfl⟩
  intro k r h
  simp [New] at h
  exact h.1

/-! ## Provider configuration -/

/-- The part of the configuration contract that holds: in a process whose
default client nothing has touched, a request sent by the default client
after `configure` arrives with `User-Agent` set to the provider's user-agent
string, with `Authorization` set to `Bearer` and the token when the token is
not empty, and without `Authorization` when it is empty. -/
theorem configure_fresh_headers {ω : Type} (UserAgent : String → String → String)
    (wire : ω → Request → Header → Reply × ω) (version : String) (d : ResourceData)
    (contentType : String) :
    (configure UserAgent wire version d Process.fresh).2.2.DefaultClient.Post contentType
        "User-Agent" = some [UserAgent "terraform-provider-grackdb" version] ∧
    (d.Get "token" ≠ "" →
      (configure UserAgent wire version d Process.fresh).2.2.DefaultClient.Post contentType
        "Authorization" = some ["Bearer " ++ d.Get "token"]) ∧
    (d.Get "token" = "" →
      (configure UserAgent wire version d Process.fresh).2.2.DefaultClient.Post contentType
        "Authorization" = none) := by
  refine ⟨?_, ?_, ?_⟩
  · by_cases h : d.Get "token" = "" <;>
      simp [configure, http.Client.Post, RoundTripper.RoundTrip, overlay, withHeader,
        withHeaderType.Set, withHeaderType.asRoundTripper, Header.Set, GoMap.set,
        GoMap.empty, Process.fresh, h]
  · intro h
    simp [configure, http.Client.Post, RoundTripper.RoundTrip, overlay, withHeader,
      withHeaderType.Set, withHeaderType.asRoundTripper, Header.Set, GoMap.set,
      GoMap.empty, Process.fresh, h]
  · intro h
    simp [configure, http.Client.Post, RoundTripper.RoundTrip, overlay, withHeader,
      withHeaderType.Set, withHeaderType.asRoundTripper, Header.Set, GoMap.set,
      GoMap.empty, Process.fresh, h]

/-- C11, at the inputs where it fails. In a process where `configure` has
run with the token `alpha`, `configure` runs again: without a token, and
with the token `beta`. Each time, the request that the current-user data
source then sends through the returned client arrives at the base transport
with `Authorization: Bearer alpha`: the wrapper of the earlier call sits
inside the new one and writes its headers last. In an untouched process the
same two configurations arrive without `Authorization` and with
`Bearer beta`. -/
theorem configure_keeps_earlier_authorization (UserAgent : String → String → String)
    (version : String) :
    configNoToken.Get "token" = "" ∧
    (headersOfRead UserAgent version configNoToken
        (processAfter UserAgent version configAlpha Process.fresh)).map
      (fun h => h "Authorization") = [some ["Bearer alpha"]] ∧
    (headersOfRead UserAgent version configBeta
        (processAfter UserAgent version configAlpha Process.fresh)).map
      (fun h => h "Authorization") = [some ["Bearer alpha"]] ∧
    (headersOfRead UserAgent version configNoToken Process.fresh).map
      (fun h => h "Authorization") = [none] ∧
    (headersOfRead UserAgent version configBeta Process.fresh).map
      (fun h => h "Authorization") = [some ["Bearer beta"]] := by
  refine ⟨?_, ?_, ?_, ?_, ?_⟩ <;> rfl

end GrackDB
